import Mathlib

/-!
Shallow embedding of the duck-coin presale programs and proofs about them.

Two program variants live in the repository:

* variant A, `programs/presale/src/instructions/*.rs` with state in
  `state/mod.rs`: global-unlock presale (buy_sol / buy_spl /
  credit_allocation / update_config / set_status / claim), replay guard is a
  per-buyer monotonic counter embedded in the signed message;
* variant B, `programs/presale/src/lib.rs`: fixed-price presale
  (buy_tokens_spl / buy_tokens_sol / claim_tokens), replay guard is a
  per-(buyer, nonce) record account, vesting is time-based cliff/linear.

Solana semantics used throughout: an instruction either succeeds, committing
all of its account mutations, or fails, committing nothing.  Every handler is
therefore a function `inputs → state → Except TxErr (state × event)`; an
`error` result leaves the caller's state untouched.

Machine integers are `Nat` with explicit `% 2 ^ 64` where the code truncates,
and explicit range guards where the code's arithmetic can leave the machine
range.  The Cargo profile that fixes Rust's overflow behaviour is not under
`src/`; spec §5 mandates overflow-checked arithmetic that aborts the whole
call, so unchecked `+` / `-` / `*` / `pow` on `u64`/`u128` are modelled from
the spec as aborting (`TxErr.arithPanic`) when they leave the machine range,
and `checked_*().unwrap()` aborts the same way.
-/

namespace Presale

/-- Exclusive upper bound of `u64`. -/
def U64LIM : Nat := 2 ^ 64

/-- Exclusive upper bound of `u128`. -/
def U128LIM : Nat := 2 ^ 128

/-- Little-endian byte encoding of a natural number on `k` bytes, as Rust's
`to_le_bytes` produces for a value below `256 ^ k`. -/
def leBytes : Nat → Nat → List Nat
  | 0, _ => []
  | k + 1, n => n % 256 :: leBytes k (n / 256)

/-- A Solana `Pubkey` is modelled as the natural number its 32 bytes encode
little-endian; `pubkeyBytes` recovers the byte form used when a key is
appended to a message (`Pubkey::as_ref`).  `0` is `Pubkey::default()`. -/
def pubkeyBytes (p : Nat) : List Nat := leBytes 32 p

/-- Rust `u16::from_le_bytes` of two bytes. -/
def u16le (lo hi : Nat) : Nat := lo + 256 * hi

/-- Rust `as u64` applied to an `i64` value: two's-complement
reinterpretation, i.e. reduction mod `2 ^ 64`. -/
def i64ToU64 (x : Int) : Nat := (x % (2 ^ 64 : Int)).toNat

/-- Rust `i64::to_le_bytes`. -/
def i64LeBytes (x : Int) : List Nat := leBytes 8 (i64ToU64 x)

/-- Rust slice `&l[off .. off + len]` (bounds are guarded at each use). -/
def slice (l : List Nat) (off len : Nat) : List Nat := (l.drop off).take len

/-- Value range of `i64`. -/
def i64Range (x : Int) : Prop := -(2 ^ 63) ≤ x ∧ x < 2 ^ 63

instance (x : Int) : Decidable (i64Range x) := by unfold i64Range; infer_instance

/-- Error codes of variant A (`errors.rs`), extended with the three
claim-authority codes that `instructions/claim.rs` and
`instructions/bind_claim_wallet.rs` reference — the checked-in `errors.rs`
lags those two handlers. -/
inductive PErrA
  | DailyCapExceeded | DailyCapExceedsSupply | PriceCannotDecrease
  | TgeCannotIncrease | PresaleNotStarted | NothingToClaim | PresaleNotActive
  | NotLaunched | CannotReopenPresale | SupplyExceeded | SupplyCannotIncrease
  | SupplyBelowTotalSold | MessageExpired | InvalidBackendKey
  | InvalidSignature | InvalidAuthMessage | InvalidEd25519Program
  | UpdateConfigOnlyOnNewDay | PresaleNotEnded | InvalidPrice
  | ClaimAuthorityNotBound | ClaimAuthorityMismatch | ClaimAuthorityAlreadyBound
  deriving DecidableEq

/-- Error codes of variant B (`lib.rs`). -/
inductive PErrB
  | PresaleNotActive | InvalidPaymentMint | InsufficientPayment
  | InvalidSignatureInstruction | InvalidSignatureData | InvalidSignatureMessage
  | UnauthorizedSigner | NonceAlreadyUsed | Overflow | NothingToClaim
  | InvalidTokenAccount | InvalidTreasuryAccount | InvalidVestingAccount
  | InvalidTokenMint | InvalidVestingDuration | InvalidTokenPrice | Unauthorized
  deriving DecidableEq

/-- Every way a call can fail: a program error of either variant, an Anchor
account-resolution failure (`init` on an existing account, a violated
`constraint`), an aborted checked-arithmetic operation / Rust panic, or a
failed CPI (token transfer / burn). -/
inductive TxErr
  | progA (e : PErrA)
  | progB (e : PErrB)
  | accountInUse
  | constraintViolation
  | arithPanic
  | cpiFailed
  deriving DecidableEq

/-- Guard combinator mirroring Anchor's `require!(c, e)` (and Rust `if !c
{ return Err(e) }`): continue with `k` iff `c` holds. -/
def req {α : Type} (c : Prop) [Decidable c] (e : TxErr) (k : Except TxErr α) :
    Except TxErr α :=
  if c then k else .error e

/-- Sequencing of a unit-valued fallible check (`verify_…(…)?`). -/
def vseq {α : Type} (r : Except TxErr Unit) (k : Except TxErr α) :
    Except TxErr α :=
  match r with
  | .error e => .error e
  | .ok _ => k

/-- Sequencing of a value-returning fallible computation (Rust `?`). -/
def ebind {α β : Type} (r : Except TxErr α) (k : α → Except TxErr β) :
    Except TxErr β :=
  match r with
  | .error e => .error e
  | .ok a => k a

/-- Mapping over the success value of a fallible computation. -/
def emap {α β : Type} (f : α → β) : Except TxErr α → Except TxErr β
  | .error e => .error e
  | .ok a => .ok (f a)

/-- Pointwise update of a keyed account map. -/
def fupd {α : Type} (f : Nat → α) (k : Nat) (v : α) : Nat → α :=
  fun x => if x = k then v else f x

/-! ## Variant A data model (`state/mod.rs` plus the fields the handlers use)

`initialize.rs`, `buy_sol.rs` and `buy_spl.rs` reference `usdc_mint`,
`usdt_mint`, `total_raised_sol`, `total_raised_usdc` and `total_raised_usdt`
on the config, while the checked-in `state/mod.rs` declares
`total_raised_usd` (used by `credit_allocation.rs`), `sold_today` (used by
`update_config.rs`) and `global_unlock_pct` (used by `claim.rs`); the struct
here is the union the handlers compile against.  The `bump` bookkeeping
fields are omitted (they never influence handler logic). -/

inductive PresaleStatus
  | PresaleActive
  | PresaleEnded
  | TokenLaunched
  deriving DecidableEq

structure PresaleConfigA where
  admin : Nat
  token_mint : Nat
  usdc_mint : Nat
  usdt_mint : Nat
  token_price_usd : Nat
  tge_percentage : Nat
  start_time : Int
  daily_cap : Nat
  total_sold : Nat
  presale_supply : Nat
  total_burned : Nat
  status : PresaleStatus
  total_raised_sol : Nat
  total_raised_usdc : Nat
  total_raised_usdt : Nat
  total_raised_usd : Nat
  sold_today : Nat
  global_unlock_pct : Nat

structure DailyStateA where
  current_day : Nat
  sold_today : Nat

/-- Record `UserAllocation` of `state/mod.rs`, plus the `claim_authority` field that
`claim.rs` / `bind_claim_wallet.rs` reference (`0` is `Pubkey::default()`,
the unbound marker). -/
structure UserAllocationA where
  amount_purchased : Nat
  amount_claimed : Nat
  claimable_amount : Nat
  amount_vesting : Nat
  last_unlock_pct : Nat
  claim_authority : Nat

/-- Whole-program durable state of variant A.  `alloc` and `nonce` are the
`init_if_needed` PDA families keyed by buyer pubkey; Anchor zero-initialises
a fresh account, so an untouched key simply maps to the zeroed record. -/
structure StateA where
  config : PresaleConfigA
  daily : DailyStateA
  alloc : Nat → UserAllocationA
  nonce : Nat → Nat

structure BuyEvent where
  buyer : Nat
  payment_amount : Nat
  token_amount : Nat
  payment_mint : Nat
  deriving DecidableEq

structure CreditEvent where
  user : Nat
  token_amount : Nat
  usd_amount : Nat
  deriving DecidableEq

structure ConfigUpdateEvent where
  new_price : Nat
  new_tge : Nat
  new_daily_cap : Nat
  deriving DecidableEq

/-! ## Ed25519 companion instruction -/

/-- The instruction loaded at index 0 from the instructions sysvar. -/
structure EdIx where
  program_id : Nat
  data : List Nat
  deriving DecidableEq

/-- Stands for the ed25519 native program id (only ever compared for
equality). -/
def ED25519_ID : Nat := 777

/-- Backend public key from `constants.rs` (all 32 bytes zero). -/
def backendPubkeyBytes : List Nat := List.replicate 32 0

/-- Function `verify_ed25519_signature` of `instructions/utils.rs`: check the
companion instruction targets the ed25519 program, read the signature /
public-key / message offsets from the fixed header layout (bytes 2-3, 6-7,
10-11 and the message size at 12-13; any out-of-range read or slice is a
Rust index panic), then compare the carried public key, signature and
message byte-for-byte against the expectations. -/
def verifyEd25519A (ix : EdIx) (expPk expMsg expSig : List Nat) :
    Except TxErr Unit :=
  req (ix.program_id = ED25519_ID) (.progA .InvalidEd25519Program) <|
  req (14 ≤ ix.data.length) .arithPanic <|
  let sigOffset := u16le (ix.data.getD 2 0) (ix.data.getD 3 0)
  let pubkeyOffset := u16le (ix.data.getD 6 0) (ix.data.getD 7 0)
  let msgOffset := u16le (ix.data.getD 10 0) (ix.data.getD 11 0)
  let msgSize := u16le (ix.data.getD 12 0) (ix.data.getD 13 0)
  req (pubkeyOffset + 32 ≤ ix.data.length) .arithPanic <|
  req (slice ix.data pubkeyOffset 32 = expPk) (.progA .InvalidBackendKey) <|
  req (sigOffset + 64 ≤ ix.data.length) .arithPanic <|
  req (slice ix.data sigOffset 64 = expSig) (.progA .InvalidSignature) <|
  req (msgOffset + msgSize ≤ ix.data.length) .arithPanic <|
  req (slice ix.data msgOffset msgSize = expMsg) (.progA .InvalidAuthMessage) <|
  .ok ()

/-- ASCII bytes of the tag `BUY_SOL_`. -/
def buySolTag : List Nat := [66, 85, 89, 95, 83, 79, 76, 95]

/-- ASCII bytes of the tag `BUY_SPL_`. -/
def buySplTag : List Nat := [66, 85, 89, 95, 83, 80, 76, 95]

/-- Message `buy_sol` reconstructs and expects the backend to have signed:
program id, buyer, tag, the buyer's *current* nonce counter, expiry. -/
def buySolMsg (programId user n : Nat) (expiresAt : Int) : List Nat :=
  pubkeyBytes programId ++ pubkeyBytes user ++ buySolTag ++
    leBytes 8 n ++ i64LeBytes expiresAt

/-- Message `buy_spl` reconstructs, same layout with the `BUY_SPL_` tag. -/
def buySplMsg (programId user n : Nat) (expiresAt : Int) : List Nat :=
  pubkeyBytes programId ++ pubkeyBytes user ++ buySplTag ++
    leBytes 8 n ++ i64LeBytes expiresAt

/-- Pyth price feed as consumed by `buy_sol`.  The pyth SDK itself is an
external crate; modelled from the spec's oracle interface (§6): it yields
(price, exponent, publish-time), the consumer rejects a feed older than 60
time units or with non-positive price, and `valid = false` stands for an
account that fails to parse as a feed. -/
structure OracleFeed where
  valid : Bool
  price : Int
  expo : Int
  publishTime : Int
  deriving DecidableEq

/-- Handler `buy_sol` of `instructions/buy_sol.rs`.  `transferOk` is the outcome of
the SOL system-transfer CPI to the launchpool vault.  Note the oracle price
is widened to `u128`, but the final `token_amount as u64` is a plain `as`
cast, i.e. truncation mod `2 ^ 64`. -/
def buySol (s : StateA) (programId user lamports : Nat) (expiresAt : Int)
    (signature : List Nat) (edIx : EdIx) (oracle : OracleFeed) (now : Int)
    (transferOk : Bool) : Except TxErr (StateA × BuyEvent) :=
  req (now ≤ expiresAt) (.progA .MessageExpired) <|
  req (s.config.status = .PresaleActive) (.progA .PresaleNotActive) <|
  req (s.config.start_time ≤ now) (.progA .PresaleNotStarted) <|
  req (s.daily.current_day = i64ToU64 (Int.tdiv now 86400))
    (.progA .UpdateConfigOnlyOnNewDay) <|
  vseq (verifyEd25519A edIx backendPubkeyBytes
      (buySolMsg programId user (s.nonce user) expiresAt) signature) <|
  req (s.nonce user + 1 < U64LIM) .arithPanic <|
  req (oracle.valid = true) (.progA .InvalidPrice) <|
  req (now - oracle.publishTime ≤ 60) (.progA .InvalidPrice) <|
  req (0 < oracle.price) (.progA .InvalidPrice) <|
  let rest := fun (solPriceUsd : Nat) =>
    req (lamports * solPriceUsd < U128LIM) .arithPanic <|
    let usdValue := lamports * solPriceUsd / 10 ^ 9
    req (usdValue * 10 ^ 9 < U128LIM) .arithPanic <|
    req (s.config.token_price_usd ≠ 0) .arithPanic <|
    let token64 := usdValue * 10 ^ 9 / s.config.token_price_usd % U64LIM
    req (s.daily.sold_today + token64 < U64LIM) .arithPanic <|
    req (s.daily.sold_today + token64 ≤ s.config.daily_cap)
      (.progA .DailyCapExceeded) <|
    req (s.config.total_sold + token64 < U64LIM) .arithPanic <|
    req (s.config.total_sold + token64 ≤ s.config.presale_supply)
      (.progA .SupplyExceeded) <|
    req (transferOk = true) .cpiFailed <|
    req ((s.alloc user).amount_purchased + token64 < U64LIM) .arithPanic <|
    req (token64 * s.config.tge_percentage < U64LIM) .arithPanic <|
    let tge := token64 * s.config.tge_percentage / 100
    req ((s.alloc user).claimable_amount + tge < U64LIM) .arithPanic <|
    req (s.config.total_raised_sol + lamports < U64LIM) .arithPanic <|
    .ok ({ s with
        config := { s.config with
          total_sold := s.config.total_sold + token64,
          total_raised_sol := s.config.total_raised_sol + lamports },
        daily := { s.daily with sold_today := s.daily.sold_today + token64 },
        alloc := fupd s.alloc user { s.alloc user with
          amount_purchased := (s.alloc user).amount_purchased + token64,
          claimable_amount := (s.alloc user).claimable_amount + tge },
        nonce := fupd s.nonce user (s.nonce user + 1) },
      { buyer := user, payment_amount := lamports, token_amount := token64,
        payment_mint := 0 })
  if 0 ≤ oracle.expo then
    req (10 ^ oracle.expo.toNat < U128LIM) .arithPanic <|
    req (oracle.price.toNat * 10 ^ oracle.expo.toNat < U128LIM) .arithPanic <|
    rest (oracle.price.toNat * 10 ^ oracle.expo.toNat)
  else
    req (-oracle.expo < 2 ^ 31) .arithPanic <|
    req (10 ^ (-oracle.expo).toNat < U128LIM) .arithPanic <|
    rest (oracle.price.toNat / 10 ^ (-oracle.expo).toNat)

/-- Handler `buy_spl` of `instructions/buy_spl.rs`.  `paymentDecimals` is
`payment_mint.decimals`; the final cast is again truncation mod `2 ^ 64`. -/
def buySpl (s : StateA) (programId user amount : Nat) (expiresAt : Int)
    (signature : List Nat) (edIx : EdIx) (paymentMint paymentDecimals : Nat)
    (now : Int) (transferOk : Bool) : Except TxErr (StateA × BuyEvent) :=
  req (now ≤ expiresAt) (.progA .MessageExpired) <|
  req (s.config.status = .PresaleActive) (.progA .PresaleNotActive) <|
  req (s.config.start_time ≤ now) (.progA .PresaleNotStarted) <|
  req (s.daily.current_day = i64ToU64 (Int.tdiv now 86400))
    (.progA .UpdateConfigOnlyOnNewDay) <|
  vseq (verifyEd25519A edIx backendPubkeyBytes
      (buySplMsg programId user (s.nonce user) expiresAt) signature) <|
  req (s.nonce user + 1 < U64LIM) .arithPanic <|
  req (amount * 10 ^ 9 < U128LIM) .arithPanic <|
  req (10 ^ paymentDecimals < U128LIM) .arithPanic <|
  let normalized := amount * 10 ^ 9 / 10 ^ paymentDecimals
  req (normalized * 10 ^ 6 < U128LIM) .arithPanic <|
  req (s.config.token_price_usd ≠ 0) .arithPanic <|
  let token64 := normalized * 10 ^ 6 / s.config.token_price_usd % U64LIM
  req (s.daily.sold_today + token64 < U64LIM) .arithPanic <|
  req (s.daily.sold_today + token64 ≤ s.config.daily_cap)
    (.progA .DailyCapExceeded) <|
  req (s.config.total_sold + token64 < U64LIM) .arithPanic <|
  req (s.config.total_sold + token64 ≤ s.config.presale_supply)
    (.progA .SupplyExceeded) <|
  req (transferOk = true) .cpiFailed <|
  req ((s.alloc user).amount_purchased + token64 < U64LIM) .arithPanic <|
  req (token64 * s.config.tge_percentage < U64LIM) .arithPanic <|
  let tge := token64 * s.config.tge_percentage / 100
  req ((s.alloc user).claimable_amount + tge < U64LIM) .arithPanic <|
  let s1 : StateA := { s with
      config := { s.config with total_sold := s.config.total_sold + token64 },
      daily := { s.daily with sold_today := s.daily.sold_today + token64 },
      alloc := fupd s.alloc user { s.alloc user with
        amount_purchased := (s.alloc user).amount_purchased + token64,
        claimable_amount := (s.alloc user).claimable_amount + tge },
      nonce := fupd s.nonce user (s.nonce user + 1) }
  let ev : BuyEvent :=
    { buyer := user, payment_amount := amount,
      token_amount := token64, payment_mint := paymentMint }
  if paymentMint = s.config.usdc_mint then
    req (s.config.total_raised_usdc + amount < U64LIM) .arithPanic <|
    .ok ({ s1 with config := { s1.config with
        total_raised_usdc := s.config.total_raised_usdc + amount } }, ev)
  else if paymentMint = s.config.usdt_mint then
    req (s.config.total_raised_usdt + amount < U64LIM) .arithPanic <|
    .ok ({ s1 with config := { s1.config with
        total_raised_usdt := s.config.total_raised_usdt + amount } }, ev)
  else .ok (s1, ev)

/-- Handler `credit_allocation` of `instructions/credit_allocation.rs` (admin-only
off-chain-payment credit; all arithmetic is `checked_*().unwrap()`). -/
def creditAllocation (s : StateA) (caller user tokenAmount usdAmount : Nat)
    (now : Int) : Except TxErr (StateA × CreditEvent) :=
  req (caller = s.config.admin) .constraintViolation <|
  req (s.config.status = .PresaleActive) (.progA .PresaleNotActive) <|
  req (s.config.start_time ≤ now) (.progA .PresaleNotStarted) <|
  req (s.daily.current_day = i64ToU64 (Int.tdiv now 86400))
    (.progA .UpdateConfigOnlyOnNewDay) <|
  req (s.daily.sold_today + tokenAmount < U64LIM) .arithPanic <|
  req (s.daily.sold_today + tokenAmount ≤ s.config.daily_cap)
    (.progA .DailyCapExceeded) <|
  req (s.config.total_sold + tokenAmount < U64LIM) .arithPanic <|
  req (s.config.total_sold + tokenAmount ≤ s.config.presale_supply)
    (.progA .SupplyExceeded) <|
  req ((s.alloc user).amount_purchased + tokenAmount < U64LIM) .arithPanic <|
  req (tokenAmount * s.config.tge_percentage < U64LIM) .arithPanic <|
  let tge := tokenAmount * s.config.tge_percentage / 100
  req ((s.alloc user).claimable_amount + tge < U64LIM) .arithPanic <|
  req (tge ≤ tokenAmount) .arithPanic <|
  let vestingAmount := tokenAmount - tge
  req ((s.alloc user).amount_vesting + vestingAmount < U64LIM) .arithPanic <|
  req (s.config.total_raised_usd + usdAmount < U64LIM) .arithPanic <|
  .ok ({ s with
      config := { s.config with
        total_sold := s.config.total_sold + tokenAmount,
        total_raised_usd := s.config.total_raised_usd + usdAmount },
      daily := { s.daily with sold_today := s.daily.sold_today + tokenAmount },
      alloc := fupd s.alloc user { s.alloc user with
        amount_purchased := (s.alloc user).amount_purchased + tokenAmount,
        claimable_amount := (s.alloc user).claimable_amount + tge,
        amount_vesting := (s.alloc user).amount_vesting + vestingAmount } },
    { user := user, token_amount := tokenAmount, usd_amount := usdAmount })

/-- Common tail of `update_config`: rollover the daily window to the current
day, apply the new price / tge, and end the presale if the new cap is zero.
`c2` already carries the new `daily_cap` and the overwritten `start_time`. -/
def updCfgFinish (s : StateA) (c2 : PresaleConfigA)
    (newBurned new_price new_tge new_daily_cap : Nat) (now : Int) : StateA :=
  { s with
    config := { c2 with
      total_burned := newBurned,
      token_price_usd := new_price,
      tge_percentage := new_tge,
      status := if new_daily_cap = 0 then .PresaleEnded else c2.status },
    daily := { current_day := i64ToU64 (Int.tdiv now 86400), sold_today := 0 } }

/-- Handler `update_config` of `instructions/update_config.rs`.  In this variant the
new-day requirement and the three monotonic-policy `require!`s are commented
out in the source; `start_time` is overwritten first (a `TODO: delete this
after testing` block).  The burn amount is
`config.daily_cap - config.sold_today` (a `checked_sub().unwrap()`) plus
`new_daily_cap.saturating_sub(daily_state.sold_today)`; `burnOk` is the
outcome of the token-burn CPI, performed only when the total is positive. -/
def updateConfigA (s : StateA) (caller new_price new_tge new_daily_cap : Nat)
    (new_start_time : Int) (now : Int) (burnOk : Bool) :
    Except TxErr (StateA × ConfigUpdateEvent) :=
  req (caller = s.config.admin) .constraintViolation <|
  let c1 := { s.config with start_time := new_start_time }
  req (c1.sold_today ≤ c1.daily_cap) .arithPanic <|
  let burnAmount := c1.daily_cap - c1.sold_today
  let c2 := { c1 with daily_cap := new_daily_cap }
  let unspent := new_daily_cap - s.daily.sold_today
  req (burnAmount + unspent < U64LIM) .arithPanic <|
  let totalBurn := burnAmount + unspent
  let ev : ConfigUpdateEvent :=
    { new_price := new_price, new_tge := new_tge,
      new_daily_cap := new_daily_cap }
  if 0 < totalBurn then
    req (s.config.total_burned + totalBurn < U64LIM) .arithPanic <|
    req (burnOk = true) .cpiFailed <|
    .ok (updCfgFinish s c2 (s.config.total_burned + totalBurn)
          new_price new_tge new_daily_cap now, ev)
  else
    .ok (updCfgFinish s c2 s.config.total_burned
          new_price new_tge new_daily_cap now, ev)

/-- Handler `set_status` of `instructions/set_status.rs`.  The reopen guard
(`require!(status == TokenLaunched)` once the presale is no longer active)
is commented out in the source, so any status is written unconditionally. -/
def setStatusA (s : StateA) (caller : Nat) (status : PresaleStatus) :
    Except TxErr StateA :=
  req (caller = s.config.admin) .constraintViolation <|
  .ok { s with config := { s.config with status := status } }

/-- Tail of `claim` after the unlock application: require a positive
claimable amount, transfer it, zero it and add it to `amount_claimed`. -/
def claimFinish (a : UserAllocationA) (transferOk : Bool) :
    Except TxErr (UserAllocationA × Nat) :=
  req (0 < a.claimable_amount) (.progA .NothingToClaim) <|
  req (transferOk = true) .cpiFailed <|
  req (a.amount_claimed + a.claimable_amount < U64LIM) .arithPanic <|
  .ok ({ a with
         claimable_amount := 0,
         amount_claimed := a.amount_claimed + a.claimable_amount },
       a.claimable_amount)

/-- Handler `claim` of `instructions/claim.rs` (global-unlock claim path): requires
the token to be launched, a bound and matching claim authority, applies any
new global unlock of the vesting portion, then pays out `claimable_amount`.
Only the caller's allocation is touched, so the function maps the allocation
record; the returned `Nat` is the claimed amount from `ClaimEvent`. -/
def claimA (cfg : PresaleConfigA) (a : UserAllocationA) (caller : Nat)
    (transferOk : Bool) : Except TxErr (UserAllocationA × Nat) :=
  req (cfg.status = .TokenLaunched) (.progA .NotLaunched) <|
  req (¬ a.claim_authority = 0) (.progA .ClaimAuthorityNotBound) <|
  req (a.claim_authority = caller) (.progA .ClaimAuthorityMismatch) <|
  if a.last_unlock_pct < cfg.global_unlock_pct then
    let newPct := cfg.global_unlock_pct - a.last_unlock_pct
    req (a.amount_vesting * newPct < U64LIM) .arithPanic <|
    let newlyUnlocked := a.amount_vesting * newPct / 100
    req (a.claimable_amount + newlyUnlocked < U64LIM) .arithPanic <|
    claimFinish
      { a with claimable_amount := a.claimable_amount + newlyUnlocked,
               last_unlock_pct := cfg.global_unlock_pct } transferOk
  else
    claimFinish a transferOk

/-- Deployment state of `instructions/initialize.rs` (the handler is named
`initialize` in the source): fresh deployment state with the hard-coded
price / tge / caps, empty counters and zeroed PDA families. -/
def initPresaleA (adminKey tokenMint usdcMint usdtMint : Nat)
    (start_time now : Int) : StateA :=
  { config :=
      { admin := adminKey, token_mint := tokenMint, usdc_mint := usdcMint,
        usdt_mint := usdtMint, token_price_usd := 5 * 10 ^ 7,
        tge_percentage := 50, start_time := start_time,
        daily_cap := 30000000 * 10 ^ 9,
        presale_supply := 2400000000 * 10 ^ 9,
        total_sold := 0, total_burned := 0, status := .PresaleActive,
        total_raised_sol := 0, total_raised_usdc := 0, total_raised_usdt := 0,
        total_raised_usd := 0, sold_today := 0, global_unlock_pct := 0 },
    daily := { current_day := i64ToU64 (Int.tdiv now 86400), sold_today := 0 },
    alloc := fun _ =>
      { amount_purchased := 0, amount_claimed := 0, claimable_amount := 0,
        amount_vesting := 0, last_unlock_pct := 0, claim_authority := 0 },
    nonce := fun _ => 0 }

/-! ## Purchase sequences (for the global supply invariant) -/

/-- One purchase call with all of its per-call inputs. -/
inductive PurchaseOpA
  | buySolOp (programId user lamports : Nat) (expiresAt : Int)
      (signature : List Nat) (edIx : EdIx) (oracle : OracleFeed) (now : Int)
      (transferOk : Bool)
  | buySplOp (programId user amount : Nat) (expiresAt : Int)
      (signature : List Nat) (edIx : EdIx) (paymentMint paymentDecimals : Nat)
      (now : Int) (transferOk : Bool)
  | creditOp (caller user tokenAmount usdAmount : Nat) (now : Int)

/-- Run one purchase; on success return the new state and the credited token
amount (the `token_amount` of the emitted event). -/
def runPurchase : PurchaseOpA → StateA → Except TxErr (StateA × Nat)
  | .buySolOp programId user lamports expiresAt signature edIx oracle now tOk,
    s =>
      emap (fun p => (p.1, p.2.token_amount))
        (buySol s programId user lamports expiresAt signature edIx oracle now
          tOk)
  | .buySplOp programId user amount expiresAt signature edIx pm pd now tOk,
    s =>
      emap (fun p => (p.1, p.2.token_amount))
        (buySpl s programId user amount expiresAt signature edIx pm pd now tOk)
  | .creditOp caller user tokenAmount usdAmount now, s =>
      emap (fun p => (p.1, p.2.token_amount))
        (creditAllocation s caller user tokenAmount usdAmount now)

/-- Apply a sequence of purchase calls with Solana rollback semantics: a
failed call leaves the state unchanged and credits nothing.  Returns the
final state and the list of token amounts of the successful purchases. -/
def applyPurchases : List PurchaseOpA → StateA → StateA × List Nat
  | [], s => (s, [])
  | op :: rest, s =>
    match runPurchase op s with
    | .ok (s', amt) =>
        let r := applyPurchases rest s'
        (r.1, amt :: r.2)
    | .error _ => applyPurchases rest s

/-! ## Variant B data model (`lib.rs`) -/

/-- Record `Config` of `lib.rs` (PDA bump omitted). -/
structure ConfigB where
  admin : Nat
  treasury : Nat
  authorized_signer : Nat
  presale_token_mint : Nat
  usdt_mint : Nat
  usdc_mint : Nat
  token_price_per_unit : Nat
  presale_token_decimals : Nat
  cliff_duration : Int
  vesting_start_time : Int
  vesting_duration : Int
  is_active : Bool
  total_sold : Nat
  deriving DecidableEq

/-- Record `VestingAccount` of `lib.rs` (PDA bump omitted). -/
structure VestingB where
  buyer : Nat
  total_purchased : Nat
  claimed_amount : Nat
  deriving DecidableEq

/-- Record `NonceAccount` of `lib.rs`.  The account is a PDA derived from
`(buyer, nonce)` and is created with `init`, so its very existence marks the
nonce as consumed. -/
structure NonceB where
  is_used : Bool
  buyer : Nat
  nonce : Nat
  used_at : Int
  deriving DecidableEq

/-- Whole-program durable state of variant B.  `vesting` is the
`init_if_needed` per-buyer PDA family (zeroed when untouched); `nonces` maps
`(buyer, nonce)` to the nonce record, `none` when the account does not
exist. -/
structure StateB where
  config : ConfigB
  vesting : Nat → VestingB
  nonces : Nat → Nat → Option NonceB

structure TokensPurchasedEvent where
  buyer : Nat
  payment_mint : Nat
  payment_amount : Nat
  token_amount : Nat
  nonce : Nat
  deriving DecidableEq

/-- ASCII bytes of `DOMAIN_SEPARATOR` = `PRESALE_V1`. -/
def domainSeparator : List Nat := [80, 82, 69, 83, 65, 76, 69, 95, 86, 49]

/-- Message format of `lib.rs`'s `verify_ed25519_signature` (131 bytes):
domain separator, program id, buyer, payment mint, payment type tag, then
payment amount, token amount and nonce as little-endian `u64`. -/
def buyTokensMsg (programId buyer paymentMint ptype payAmt tokAmt n : Nat) :
    List Nat :=
  domainSeparator ++ pubkeyBytes programId ++ pubkeyBytes buyer ++
    pubkeyBytes paymentMint ++ [ptype] ++ leBytes 8 payAmt ++
    leBytes 8 tokAmt ++ leBytes 8 n

/-- Function `verify_ed25519_signature` of `lib.rs`: all bounds are checked explicitly
(no index panics), the signature count byte must be 1, the carried public key
must equal the authorized signer and the carried message must equal the
reconstructed one.  The signature bytes themselves are never compared. -/
def verifyEd25519B (ix : EdIx) (authorizedSigner : Nat) (expMsg : List Nat) :
    Except TxErr Unit :=
  req (ix.program_id = ED25519_ID) (.progB .InvalidSignatureInstruction) <|
  req (16 ≤ ix.data.length) (.progB .InvalidSignatureData) <|
  req (ix.data.getD 0 0 = 1) (.progB .InvalidSignatureData) <|
  let sigOffset := u16le (ix.data.getD 2 0) (ix.data.getD 3 0)
  let pubkeyOffset := u16le (ix.data.getD 6 0) (ix.data.getD 7 0)
  let msgOffset := u16le (ix.data.getD 10 0) (ix.data.getD 11 0)
  let msgSize := u16le (ix.data.getD 12 0) (ix.data.getD 13 0)
  req (sigOffset + 64 ≤ ix.data.length) (.progB .InvalidSignatureData) <|
  req (pubkeyOffset + 32 ≤ ix.data.length) (.progB .InvalidSignatureData) <|
  req (msgOffset + msgSize ≤ ix.data.length) (.progB .InvalidSignatureData) <|
  req (slice ix.data pubkeyOffset 32 = pubkeyBytes authorizedSigner)
    (.progB .UnauthorizedSigner) <|
  req (slice ix.data msgOffset msgSize = expMsg)
    (.progB .InvalidSignatureMessage) <|
  .ok ()

/-- Function `calculate_payment_amount` of `lib.rs`: `token_amount * price_per_unit`
in `u128` (`checked_mul` → `Overflow`), rejected as `Overflow` if the result
does not fit a `u64`. -/
def calculatePaymentAmount (token_amount price_per_unit : Nat) :
    Except TxErr Nat :=
  req (token_amount * price_per_unit < U128LIM) (.progB .Overflow) <|
  req (token_amount * price_per_unit < U64LIM) (.progB .Overflow) <|
  .ok (token_amount * price_per_unit)

/-- Handler `buy_tokens_spl` of `lib.rs`.  `accountsOk` folds the token-account /
treasury Anchor constraints; the `(buyer, nonce)` record is created with
`init` before the handler body runs, so an existing record fails the whole
call up front.  The handler then checks activity, payment sufficiency,
payment mint, the signature companion, marks the nonce used, transfers, and
accumulates the vesting account and `total_sold` with `checked_add`. -/
def buyTokensSpl (s : StateB) (programId buyer paymentMint : Nat)
    (payment_amount token_amount n : Nat) (edIx : EdIx) (now : Int)
    (accountsOk transferOk : Bool) :
    Except TxErr (StateB × TokensPurchasedEvent) :=
  req (accountsOk = true) .constraintViolation <|
  req (s.nonces buyer n = none) .accountInUse <|
  req (s.config.is_active = true) (.progB .PresaleNotActive) <|
  ebind (calculatePaymentAmount token_amount s.config.token_price_per_unit)
    fun expected =>
  req (expected ≤ payment_amount) (.progB .InsufficientPayment) <|
  let rest := fun (ptype : Nat) =>
    vseq (verifyEd25519B edIx s.config.authorized_signer
        (buyTokensMsg programId buyer paymentMint ptype payment_amount
          token_amount n)) <|
    let nacct : NonceB :=
      { is_used := true, buyer := buyer, nonce := n, used_at := now }
    req (transferOk = true) .cpiFailed <|
    let v0 := s.vesting buyer
    let v1 := if v0.buyer = 0 then
        { v0 with buyer := buyer, total_purchased := 0, claimed_amount := 0 }
      else v0
    req (v1.total_purchased + token_amount < U64LIM) (.progB .Overflow) <|
    req (s.config.total_sold + token_amount < U64LIM) (.progB .Overflow) <|
    .ok ({ s with
          config := { s.config with
            total_sold := s.config.total_sold + token_amount },
          vesting := fupd s.vesting buyer
            { v1 with total_purchased := v1.total_purchased + token_amount },
          nonces := fun b m =>
            if b = buyer ∧ m = n then some nacct else s.nonces b m },
        { buyer := buyer, payment_mint := paymentMint,
          payment_amount := payment_amount, token_amount := token_amount,
          nonce := n })
  if paymentMint = s.config.usdt_mint then rest 1
  else if paymentMint = s.config.usdc_mint then rest 2
  else .error (.progB .InvalidPaymentMint)

/-- Handler `buy_tokens_sol` of `lib.rs`: same flow as `buy_tokens_spl`, except the
payment mint is `Pubkey::default()` (0) with payment type 0, there is no
mint dispatch, and the payment is a system-program lamport transfer. -/
def buyTokensSol (s : StateB) (programId buyer : Nat)
    (payment_amount token_amount n : Nat) (edIx : EdIx) (now : Int)
    (accountsOk transferOk : Bool) :
    Except TxErr (StateB × TokensPurchasedEvent) :=
  req (accountsOk = true) .constraintViolation <|
  req (s.nonces buyer n = none) .accountInUse <|
  req (s.config.is_active = true) (.progB .PresaleNotActive) <|
  ebind (calculatePaymentAmount token_amount s.config.token_price_per_unit)
    fun expected =>
  req (expected ≤ payment_amount) (.progB .InsufficientPayment) <|
  vseq (verifyEd25519B edIx s.config.authorized_signer
      (buyTokensMsg programId buyer 0 0 payment_amount token_amount n)) <|
  let nacct : NonceB :=
    { is_used := true, buyer := buyer, nonce := n, used_at := now }
  req (transferOk = true) .cpiFailed <|
  let v0 := s.vesting buyer
  let v1 := if v0.buyer = 0 then
      { v0 with buyer := buyer, total_purchased := 0, claimed_amount := 0 }
    else v0
  req (v1.total_purchased + token_amount < U64LIM) (.progB .Overflow) <|
  req (s.config.total_sold + token_amount < U64LIM) (.progB .Overflow) <|
  .ok ({ s with
        config := { s.config with
          total_sold := s.config.total_sold + token_amount },
        vesting := fupd s.vesting buyer
          { v1 with total_purchased := v1.total_purchased + token_amount },
        nonces := fun b m =>
          if b = buyer ∧ m = n then some nacct else s.nonces b m },
      { buyer := buyer, payment_mint := 0, payment_amount := payment_amount,
        token_amount := token_amount, nonce := n })

/-- Handler `claim_tokens` of `lib.rs` (time-based cliff/linear vesting).  Cliff and
vesting ends are `checked_add` on `i64` (`Overflow` on leaving the range);
the linear branch computes `total * elapsed / period` in `u128` and casts
the result back with `as u64`; `claimable` is
`vested.checked_sub(claimed).ok_or(Overflow)`. -/
def claimTokens (cfg : ConfigB) (v : VestingB) (now : Int)
    (transferOk : Bool) : Except TxErr (VestingB × Nat) :=
  req (i64Range (cfg.vesting_start_time + cfg.cliff_duration))
    (.progB .Overflow) <|
  let cliffEnd := cfg.vesting_start_time + cfg.cliff_duration
  req (i64Range (cfg.vesting_start_time + cfg.vesting_duration))
    (.progB .Overflow) <|
  let vestingEnd := cfg.vesting_start_time + cfg.vesting_duration
  ebind
    (if now < cliffEnd then .ok 0
     else if vestingEnd ≤ now then .ok v.total_purchased
     else
       req (i64Range (now - cliffEnd)) .arithPanic <|
       req (i64Range (vestingEnd - cliffEnd)) .arithPanic <|
       req (v.total_purchased * (now - cliffEnd).toNat < U128LIM)
         (.progB .Overflow) <|
       req (¬ (vestingEnd - cliffEnd).toNat = 0) (.progB .Overflow) <|
       .ok (v.total_purchased * (now - cliffEnd).toNat /
             (vestingEnd - cliffEnd).toNat % U64LIM))
    fun vested =>
  req (v.claimed_amount ≤ vested) (.progB .Overflow) <|
  let claimable := vested - v.claimed_amount
  req (0 < claimable) (.progB .NothingToClaim) <|
  req (transferOk = true) .cpiFailed <|
  req (v.claimed_amount + claimable < U64LIM) (.progB .Overflow) <|
  .ok ({ v with claimed_amount := v.claimed_amount + claimable }, claimable)

/-- Vested amount of spec §4.9, written from the spec's words for comparison
with `claimTokens`: `0` before the cliff ends, everything after vesting
ends, otherwise `floor(total_purchased * (now − cliff_end) /
(vesting_end − cliff_end))`. -/
def vestedSpec (cfg : ConfigB) (v : VestingB) (now : Int) : Nat :=
  let cliffEnd := cfg.vesting_start_time + cfg.cliff_duration
  let vestingEnd := cfg.vesting_start_time + cfg.vesting_duration
  if now < cliffEnd then 0
  else if vestingEnd ≤ now then v.total_purchased
  else v.total_purchased * (now - cliffEnd).toNat / (vestingEnd - cliffEnd).toNat

/-! ## Concrete data for witnesses and counterexamples -/

/-- Companion ed25519 instruction data in the standard layout: 16-byte
header, signature at offset 16, public key at offset 80, message at offset
112.  The signature and public key are all-zero (matching the all-zero
`BACKEND_PUBKEY` of variant A and `authorized_signer = 0` in the variant-B
witness config). -/
def mkEdData (msg : List Nat) : List Nat :=
  [1, 0, 16, 0, 0, 0, 80, 0, 0, 0, 112, 0,
    msg.length % 256, msg.length / 256, 0, 0] ++
    List.replicate 64 0 ++ List.replicate 32 0 ++ msg

def wSig : List Nat := List.replicate 64 0

def wCfgA : PresaleConfigA :=
  { admin := 9, token_mint := 2, usdc_mint := 3, usdt_mint := 4,
    token_price_usd := 10 ^ 6, tge_percentage := 50, start_time := 0,
    daily_cap := 10 ^ 12, total_sold := 0, presale_supply := 10 ^ 12,
    total_burned := 0, status := .PresaleActive, total_raised_sol := 0,
    total_raised_usdc := 0, total_raised_usdt := 0, total_raised_usd := 0,
    sold_today := 0, global_unlock_pct := 0 }

def wStateA : StateA :=
  { config := wCfgA,
    daily := { current_day := 0, sold_today := 0 },
    alloc := fun _ => ⟨0, 0, 0, 0, 0, 0⟩,
    nonce := fun _ => 0 }

def wSplIx : EdIx := ⟨ED25519_ID, mkEdData (buySplMsg 7 1 0 0)⟩

def wSolIx : EdIx := ⟨ED25519_ID, mkEdData (buySolMsg 7 1 0 0)⟩

def wOracle : OracleFeed := ⟨true, 1, 0, 0⟩

/-- Config for the truncation counterexample: token price 1 (reachable via
`update_config`, whose checks are disabled). -/
def w7StateA : StateA := { wStateA with config := { wCfgA with token_price_usd := 1 } }

/-- State for the rollover-burn counterexample: outgoing cap 10, 8 sold
today in the daily window, `config.sold_today` at its initialised 0. -/
def w6StateA : StateA :=
  { wStateA with
    config := { wCfgA with daily_cap := 10 },
    daily := { current_day := 0, sold_today := 8 } }

def wCfgB : ConfigB :=
  { admin := 9, treasury := 8, authorized_signer := 0,
    presale_token_mint := 2, usdt_mint := 4, usdc_mint := 3,
    token_price_per_unit := 1, presale_token_decimals := 9,
    cliff_duration := 100, vesting_start_time := 1000,
    vesting_duration := 1000, is_active := true, total_sold := 0 }

def wStateB : StateB := ⟨wCfgB, fun _ => ⟨0, 0, 0⟩, fun _ _ => none⟩

def wBIx : EdIx := ⟨ED25519_ID, mkEdData (buyTokensMsg 7 1 4 1 1000 1000 5)⟩

def wBSolIx : EdIx := ⟨ED25519_ID, mkEdData (buyTokensMsg 7 1 0 0 1000 1000 6)⟩

/-- The u128 value `buy_sol` computes for the token amount before the final
`as u64` cast: oracle price normalised by its exponent, payment converted to
USD, then divided by the token price (all floor divisions, as in `u128`). -/
def solWideAmount (lamports : Nat) (oracle : OracleFeed) (price : Nat) : Nat :=
  let pu := if 0 ≤ oracle.expo then oracle.price.toNat * 10 ^ oracle.expo.toNat
            else oracle.price.toNat / 10 ^ (-oracle.expo).toNat
  lamports * pu / 10 ^ 9 * 10 ^ 9 / price

/-- The u128 value `buy_spl` computes for the token amount before the final
`as u64` cast. -/
def splWideAmount (amount paymentDecimals price : Nat) : Nat :=
  amount * 10 ^ 9 / 10 ^ paymentDecimals * 10 ^ 6 / price

/-- Committed state of a variant-A purchase under Solana rollback semantics:
the new state on success, the unchanged state on failure. -/
def stepA (r : Except TxErr (StateA × BuyEvent)) (s : StateA) : StateA :=
  match r with
  | .ok p => p.1
  | .error _ => s

/-- Committed state of a variant-B purchase under Solana rollback
semantics. -/
def stepB (r : Except TxErr (StateB × TokensPurchasedEvent)) (s : StateB) :
    StateB :=
  match r with
  | .ok p => p.1
  | .error _ => s

/-! ## Combinator lemmas -/

theorem req_ok {α : Type} {c : Prop} [Decidable c] {e : TxErr}
    {k : Except TxErr α} {x : α} : req c e k = .ok x ↔ c ∧ k = .ok x := by
  unfold req; split <;> simp_all

theorem req_pos {α : Type} {c : Prop} [Decidable c] (h : c) (e : TxErr)
    (k : Except TxErr α) : req c e k = k := if_pos h

theorem req_neg {α : Type} {c : Prop} [Decidable c] (h : ¬ c) (e : TxErr)
    (k : Except TxErr α) : req c e k = .error e := if_neg h

theorem vseq_ok {α : Type} {r : Except TxErr Unit} {k : Except TxErr α}
    {x : α} : vseq r k = .ok x ↔ r = .ok () ∧ k = .ok x := by
  cases r <;> simp [vseq]

theorem vseq_err {α : Type} (e : TxErr) (k : Except TxErr α) :
    vseq (.error e) k = .error e := rfl

theorem ebind_ok {α β : Type} {r : Except TxErr α} {k : α → Except TxErr β}
    {x : β} : ebind r k = .ok x ↔ ∃ a, r = .ok a ∧ k a = .ok x := by
  cases r <;> simp [ebind]

theorem ebind_okp {α β : Type} (a : α) (k : α → Except TxErr β) :
    ebind (.ok a) k = k a := rfl

theorem ebind_err {α β : Type} (e : TxErr) (k : α → Except TxErr β) :
    ebind (.error e) k = .error e := rfl

theorem fupd_self {α : Type} (f : Nat → α) (k : Nat) (v : α) :
    fupd f k v k = v := by simp [fupd]

/-! ## Byte-encoding lemmas -/

theorem leBytes_length (k n : Nat) : (leBytes k n).length = k := by
  induction k generalizing n with
  | zero => rfl
  | succ k ih => simp [leBytes, ih]

theorem leBytes_inj {k m n : Nat} (hm : m < 256 ^ k) (hn : n < 256 ^ k)
    (h : leBytes k m = leBytes k n) : m = n := by
  induction k generalizing m n with
  | zero => simp at hm hn; omega
  | succ k ih =>
      simp only [leBytes, List.cons.injEq] at h
      have hm' : m < 256 ^ k * 256 := by rw [← pow_succ]; exact hm
      have hn' : n < 256 ^ k * 256 := by rw [← pow_succ]; exact hn
      have h2 : m / 256 = n / 256 := ih (by omega) (by omega) h.2
      omega

/-- The two `buy_sol` messages embedding different nonce counters differ. -/
theorem buySolMsg_ne {programId user m n : Nat} {e : Int}
    (hm : m < U64LIM) (hn : n < U64LIM) (hne : m ≠ n) :
    buySolMsg programId user m e ≠ buySolMsg programId user n e := by
  intro h
  unfold buySolMsg at h
  have h1 := List.append_cancel_right h
  have h2 := List.append_cancel_left h1
  exact hne (leBytes_inj (by simpa [U64LIM] using hm)
    (by simpa [U64LIM] using hn) h2)

/-- The two `buy_spl` messages embedding different nonce counters differ. -/
theorem buySplMsg_ne {programId user m n : Nat} {e : Int}
    (hm : m < U64LIM) (hn : n < U64LIM) (hne : m ≠ n) :
    buySplMsg programId user m e ≠ buySplMsg programId user n e := by
  intro h
  unfold buySplMsg at h
  have h1 := List.append_cancel_right h
  have h2 := List.append_cancel_left h1
  exact hne (leBytes_inj (by simpa [U64LIM] using hm)
    (by simpa [U64LIM] using hn) h2)

/-- If the companion instruction verified against message `m`, re-verifying
it against a different expected message fails with `InvalidAuthMessage`. -/
theorem verifyA_msg_swap {ix : EdIx} {pk m sig : List Nat} (m' : List Nat)
    (h : verifyEd25519A ix pk m sig = .ok ()) (hne : m' ≠ m) :
    verifyEd25519A ix pk m' sig = .error (.progA .InvalidAuthMessage) := by
  simp only [verifyEd25519A, req_ok] at h
  obtain ⟨h1, h2, h3, h4, h5, h6, h7, h8, -⟩ := h
  simp only [verifyEd25519A]
  rw [req_pos h1, req_pos h2, req_pos h3, req_pos h4, req_pos h5, req_pos h6,
    req_pos h7]
  exact req_neg (by rw [h8]; exact fun hh => hne hh.symm) _ _

set_option maxHeartbeats 1000000

/-! ## Success characterisations of the variant-A purchase handlers -/

theorem buySol_ok_spec {s s' : StateA} {programId user lamports : Nat}
    {expiresAt now : Int} {signature : List Nat} {edIx : EdIx}
    {oracle : OracleFeed} {transferOk : Bool} {ev : BuyEvent}
    (h : buySol s programId user lamports expiresAt signature edIx oracle now
      transferOk = .ok (s', ev)) :
    now ≤ expiresAt ∧
    s.config.status = .PresaleActive ∧
    s.config.start_time ≤ now ∧
    s.daily.current_day = i64ToU64 (Int.tdiv now 86400) ∧
    verifyEd25519A edIx backendPubkeyBytes
      (buySolMsg programId user (s.nonce user) expiresAt) signature = .ok () ∧
    s.nonce user + 1 < U64LIM ∧
    s.config.total_sold + ev.token_amount ≤ s.config.presale_supply ∧
    s.daily.sold_today + ev.token_amount ≤ s.config.daily_cap ∧
    s'.config.total_sold = s.config.total_sold + ev.token_amount ∧
    s'.config.presale_supply = s.config.presale_supply ∧
    s'.config.status = s.config.status ∧
    s'.config.start_time = s.config.start_time ∧
    s'.config.tge_percentage = s.config.tge_percentage ∧
    s'.config.daily_cap = s.config.daily_cap ∧
    s'.config.token_price_usd = s.config.token_price_usd ∧
    s'.daily.current_day = s.daily.current_day ∧
    s'.nonce user = s.nonce user + 1 ∧
    (s'.alloc user).claimable_amount =
      (s.alloc user).claimable_amount +
        ev.token_amount * s.config.tge_percentage / 100 ∧
    (s'.alloc user).amount_vesting = (s.alloc user).amount_vesting ∧
    (s'.alloc user).amount_purchased =
      (s.alloc user).amount_purchased + ev.token_amount ∧
    ev.token_amount = solWideAmount lamports oracle s.config.token_price_usd % U64LIM ∧
    ev.buyer = user := by
  simp only [buySol, req_ok, vseq_ok] at h
  obtain ⟨h1, h2, h3, h4, ⟨hver, h⟩⟩ := h
  obtain ⟨hn, hvalid, hstale, hpos, h⟩ := h
  split at h
  case isTrue hexpo =>
    simp only [req_ok, Except.ok.injEq, Prod.mk.injEq] at h
    obtain ⟨hp1, hp2, hmul, hmul2, hpz, hd1, hd2, ht1, ht2, htr, ha1, ha2, ha3, hr1, hs, hev⟩ := h
    subst hs; subst hev
    refine ⟨h1, h2, h3, h4, hver, hn, ht2, hd2, ?_, ?_, ?_, ?_, ?_, ?_, ?_, ?_, ?_, ?_, ?_, ?_, ?_, ?_⟩ <;>
      simp [fupd, solWideAmount, hexpo]
  case isFalse hexpo =>
    simp only [req_ok, Except.ok.injEq, Prod.mk.injEq] at h
    obtain ⟨hp1, hp2, hmul, hmul2, hpz, hd1, hd2, ht1, ht2, htr, ha1, ha2, ha3, hr1, hs, hev⟩ := h
    subst hs; subst hev
    refine ⟨h1, h2, h3, h4, hver, hn, ht2, hd2, ?_, ?_, ?_, ?_, ?_, ?_, ?_, ?_, ?_, ?_, ?_, ?_, ?_, ?_⟩ <;>
      simp [fupd, solWideAmount, hexpo]

theorem buySpl_ok_spec {s s' : StateA} {programId user amount : Nat}
    {expiresAt now : Int} {signature : List Nat} {edIx : EdIx}
    {paymentMint paymentDecimals : Nat} {transferOk : Bool} {ev : BuyEvent}
    (h : buySpl s programId user amount expiresAt signature edIx paymentMint
      paymentDecimals now transferOk = .ok (s', ev)) :
    now ≤ expiresAt ∧
    s.config.status = .PresaleActive ∧
    s.config.start_time ≤ now ∧
    s.daily.current_day = i64ToU64 (Int.tdiv now 86400) ∧
    verifyEd25519A edIx backendPubkeyBytes
      (buySplMsg programId user (s.nonce user) expiresAt) signature = .ok () ∧
    s.nonce user + 1 < U64LIM ∧
    s.config.total_sold + ev.token_amount ≤ s.config.presale_supply ∧
    s.daily.sold_today + ev.token_amount ≤ s.config.daily_cap ∧
    s'.config.total_sold = s.config.total_sold + ev.token_amount ∧
    s'.config.presale_supply = s.config.presale_supply ∧
    s'.config.status = s.config.status ∧
    s'.config.start_time = s.config.start_time ∧
    s'.config.tge_percentage = s.config.tge_percentage ∧
    s'.config.daily_cap = s.config.daily_cap ∧
    s'.config.token_price_usd = s.config.token_price_usd ∧
    s'.daily.current_day = s.daily.current_day ∧
    s'.nonce user = s.nonce user + 1 ∧
    (s'.alloc user).claimable_amount =
      (s.alloc user).claimable_amount +
        ev.token_amount * s.config.tge_percentage / 100 ∧
    (s'.alloc user).amount_vesting = (s.alloc user).amount_vesting ∧
    (s'.alloc user).amount_purchased =
      (s.alloc user).amount_purchased + ev.token_amount ∧
    ev.token_amount =
      splWideAmount amount paymentDecimals s.config.token_price_usd % U64LIM ∧
    ev.buyer = user := by
  simp only [buySpl, req_ok, vseq_ok] at h
  obtain ⟨h1, h2, h3, h4, ⟨hver, h⟩⟩ := h
  obtain ⟨hn, hm1, hm2, hm3, hpz, hd1, hd2, ht1, ht2, htr, ha1, ha2, ha3, h⟩ := h
  split at h
  case isTrue hmint =>
    simp only [req_ok, Except.ok.injEq, Prod.mk.injEq] at h
    obtain ⟨hr, hs, hev⟩ := h
    subst hs; subst hev
    refine ⟨h1, h2, h3, h4, hver, hn, ht2, hd2, ?_, ?_, ?_, ?_, ?_, ?_, ?_, ?_, ?_, ?_, ?_, ?_, ?_, ?_⟩ <;>
      simp [fupd, splWideAmount]
  case isFalse hmint =>
    split at h
    case isTrue hmint2 =>
      simp only [req_ok, Except.ok.injEq, Prod.mk.injEq] at h
      obtain ⟨hr, hs, hev⟩ := h
      subst hs; subst hev
      refine ⟨h1, h2, h3, h4, hver, hn, ht2, hd2, ?_, ?_, ?_, ?_, ?_, ?_, ?_, ?_, ?_, ?_, ?_, ?_, ?_, ?_⟩ <;>
        simp [fupd, splWideAmount]
    case isFalse hmint2 =>
      simp only [Except.ok.injEq, Prod.mk.injEq] at h
      obtain ⟨hs, hev⟩ := h
      subst hs; subst hev
      refine ⟨h1, h2, h3, h4, hver, hn, ht2, hd2, ?_, ?_, ?_, ?_, ?_, ?_, ?_, ?_, ?_, ?_, ?_, ?_, ?_, ?_⟩ <;>
        simp [fupd, splWideAmount]

theorem creditAllocation_ok_spec {s s' : StateA}
    {caller user tokenAmount usdAmount : Nat} {now : Int} {ev : CreditEvent}
    (h : creditAllocation s caller user tokenAmount usdAmount now =
      .ok (s', ev)) :
    caller = s.config.admin ∧
    s.config.status = .PresaleActive ∧
    s.config.start_time ≤ now ∧
    s.daily.current_day = i64ToU64 (Int.tdiv now 86400) ∧
    s.config.total_sold + tokenAmount ≤ s.config.presale_supply ∧
    s.daily.sold_today + tokenAmount ≤ s.config.daily_cap ∧
    tokenAmount * s.config.tge_percentage / 100 ≤ tokenAmount ∧
    s'.config.total_sold = s.config.total_sold + tokenAmount ∧
    s'.config.presale_supply = s.config.presale_supply ∧
    s'.config.status = s.config.status ∧
    s'.config.tge_percentage = s.config.tge_percentage ∧
    (s'.alloc user).claimable_amount =
      (s.alloc user).claimable_amount +
        tokenAmount * s.config.tge_percentage / 100 ∧
    (s'.alloc user).amount_vesting =
      (s.alloc user).amount_vesting +
        (tokenAmount - tokenAmount * s.config.tge_percentage / 100) ∧
    (s'.alloc user).amount_purchased =
      (s.alloc user).amount_purchased + tokenAmount ∧
    ev.token_amount = tokenAmount ∧
    ev.user = user := by
  simp only [creditAllocation, req_ok, Except.ok.injEq, Prod.mk.injEq] at h
  obtain ⟨hadm, h2, h3, h4, hd1, hd2, ht1, ht2, ha1, ha2, ha3, hsub, hv1, hr, hs, hev⟩ := h
  subst hs; subst hev
  refine ⟨hadm, h2, h3, h4, ht2, hd2, hsub, ?_, ?_, ?_, ?_, ?_, ?_, ?_, ?_, ?_⟩ <;>
    simp [fupd]

/-! ## Purchase-sequence accounting -/

theorem emap_ok {α β : Type} {f : α → β} {r : Except TxErr α} {x : β} :
    emap f r = .ok x ↔ ∃ a, r = .ok a ∧ f a = x := by
  cases r <;> simp [emap]

/-- Any successful purchase credits exactly its event's token amount to
`total_sold`, stays within the presale supply, and preserves the supply. -/
theorem runPurchase_ok {op : PurchaseOpA} {s s' : StateA} {amt : Nat}
    (h : runPurchase op s = .ok (s', amt)) :
    s.config.total_sold + amt ≤ s.config.presale_supply ∧
    s'.config.total_sold = s.config.total_sold + amt ∧
    s'.config.presale_supply = s.config.presale_supply := by
  cases op with
  | buySolOp programId user lamports expiresAt signature edIx oracle now tOk =>
      simp only [runPurchase, emap_ok] at h
      obtain ⟨⟨s'', ev⟩, heq, hpair⟩ := h
      simp only [Prod.mk.injEq] at hpair
      obtain ⟨hs, hamt⟩ := hpair
      subst hs; subst hamt
      obtain ⟨-, -, -, -, -, -, hle, -, hts, hsup, -⟩ := buySol_ok_spec heq
      exact ⟨hle, hts, hsup⟩
  | buySplOp programId user amount expiresAt signature edIx pm pd now tOk =>
      simp only [runPurchase, emap_ok] at h
      obtain ⟨⟨s'', ev⟩, heq, hpair⟩ := h
      simp only [Prod.mk.injEq] at hpair
      obtain ⟨hs, hamt⟩ := hpair
      subst hs; subst hamt
      obtain ⟨-, -, -, -, -, -, hle, -, hts, hsup, -⟩ := buySpl_ok_spec heq
      exact ⟨hle, hts, hsup⟩
  | creditOp caller user tokenAmount usdAmount now =>
      simp only [runPurchase, emap_ok] at h
      obtain ⟨⟨s'', ev⟩, heq, hpair⟩ := h
      simp only [Prod.mk.injEq] at hpair
      obtain ⟨hs, hamt⟩ := hpair
      subst hs; subst hamt
      obtain ⟨-, -, -, -, hle, -, -, hts, hsup, -, -, -, -, -, hevtok, -⟩ :=
        creditAllocation_ok_spec heq
      rw [hevtok]
      exact ⟨hle, hts, hsup⟩

/-- Folding any purchase sequence from a state within supply: the final
`total_sold` is the initial one plus all credited amounts, the supply bound
is maintained, and the supply itself never changes. -/
theorem applyPurchases_spec (ops : List PurchaseOpA) (s : StateA)
    (hinv : s.config.total_sold ≤ s.config.presale_supply) :
    (applyPurchases ops s).1.config.total_sold =
      s.config.total_sold + ((applyPurchases ops s).2).sum ∧
    (applyPurchases ops s).1.config.total_sold ≤
      (applyPurchases ops s).1.config.presale_supply ∧
    (applyPurchases ops s).1.config.presale_supply =
      s.config.presale_supply := by
  induction ops generalizing s with
  | nil => simpa [applyPurchases] using hinv
  | cons op rest ih =>
      simp only [applyPurchases]
      cases hr : runPurchase op s with
      | ok p =>
          obtain ⟨s', amt⟩ := p
          obtain ⟨hle, hts, hsup⟩ := runPurchase_ok hr
          obtain ⟨ih1, ih2, ih3⟩ := ih s' (by omega)
          refine ⟨?_, ?_, ?_⟩ <;> simp [ih1, ih2, ih3, hts, hsup] <;> omega
      | error e =>
          exact ih s hinv


/-! ## Claim C1 -/

/-- Result of the concrete admin credit used as the C1 witness input. -/
def wCreditRes : StateA × Nat :=
  ((runPurchase (.creditOp 9 1 1000 50 0) wStateA).toOption).getD (wStateA, 0)

/-- C1: for every sequence of successful purchase operations (buy_sol,
buy_spl, credit_allocation) after initialization, the sum of all credited
token amounts equals `total_sold`, and `total_sold ≤ presale_supply` at
every observation point (every prefix is itself a quantified sequence);
moreover a successful purchase never pushes `total_sold` past
`presale_supply` — one whose amount would do so is rejected, and a rejected
call leaves the state unchanged by `applyPurchases`' rollback semantics. -/
theorem c1_total_sold_invariant :
    (∀ (ops : List PurchaseOpA) (adminKey tokenMint usdcMint usdtMint : Nat)
        (startTime nowInit : Int),
      (applyPurchases ops
          (initPresaleA adminKey tokenMint usdcMint usdtMint startTime
            nowInit)).1.config.total_sold =
        ((applyPurchases ops
          (initPresaleA adminKey tokenMint usdcMint usdtMint startTime
            nowInit)).2).sum ∧
      (applyPurchases ops
          (initPresaleA adminKey tokenMint usdcMint usdtMint startTime
            nowInit)).1.config.total_sold ≤
        (applyPurchases ops
          (initPresaleA adminKey tokenMint usdcMint usdtMint startTime
            nowInit)).1.config.presale_supply) ∧
    (∀ (op : PurchaseOpA) (s s' : StateA) (amt : Nat),
      runPurchase op s = .ok (s', amt) →
        s.config.total_sold + amt ≤ s.config.presale_supply ∧
        s'.config.total_sold = s.config.total_sold + amt) := by
  constructor
  · intro ops adminKey tokenMint usdcMint usdtMint startTime nowInit
    have h := applyPurchases_spec ops
      (initPresaleA adminKey tokenMint usdcMint usdtMint startTime nowInit)
      (by simp [initPresaleA])
    obtain ⟨h1, h2, -⟩ := h
    refine ⟨?_, h2⟩
    simpa [initPresaleA] using h1
  · intro op s s' amt h
    obtain ⟨hle, hts, -⟩ := runPurchase_ok h
    exact ⟨hle, hts⟩

/-- C1 witness: the sequence part at a concrete one-credit sequence, and the
per-call part at a concrete successful credit. -/
theorem c1_witness :
    ((applyPurchases [.creditOp 9 1 1000 50 0]
        (initPresaleA 9 2 3 4 0 0)).1.config.total_sold =
      ((applyPurchases [.creditOp 9 1 1000 50 0]
        (initPresaleA 9 2 3 4 0 0)).2).sum ∧
     (applyPurchases [.creditOp 9 1 1000 50 0]
        (initPresaleA 9 2 3 4 0 0)).1.config.total_sold ≤
      (applyPurchases [.creditOp 9 1 1000 50 0]
        (initPresaleA 9 2 3 4 0 0)).1.config.presale_supply) ∧
    (wStateA.config.total_sold + wCreditRes.2 ≤ wStateA.config.presale_supply ∧
     wCreditRes.1.config.total_sold =
      wStateA.config.total_sold + wCreditRes.2) :=
  ⟨c1_total_sold_invariant.1 [.creditOp 9 1 1000 50 0] 9 2 3 4 0 0,
   c1_total_sold_invariant.2 (.creditOp 9 1 1000 50 0) wStateA wCreditRes.1
     wCreditRes.2 rfl⟩


/-! ## Claim C2 -/

/-- Success characterisation of `buy_tokens_spl` (the parts the replay
theorem needs): the constraints passed, the nonce record did not exist
before the call, and it exists afterwards. -/
theorem buyTokensSpl_ok_spec {s s' : StateB} {programId buyer paymentMint : Nat}
    {payment_amount token_amount n : Nat} {edIx : EdIx} {now : Int}
    {accountsOk transferOk : Bool} {ev : TokensPurchasedEvent}
    (h : buyTokensSpl s programId buyer paymentMint payment_amount
      token_amount n edIx now accountsOk transferOk = .ok (s', ev)) :
    accountsOk = true ∧ s.nonces buyer n = none ∧
    (s'.nonces buyer n).isSome ∧
    s'.config.total_sold = s.config.total_sold + token_amount ∧
    (s'.vesting buyer).total_purchased =
      (if (s.vesting buyer).buyer = 0 then 0
       else (s.vesting buyer).total_purchased) + token_amount := by
  simp only [buyTokensSpl, req_ok, vseq_ok, ebind_ok] at h
  obtain ⟨haOk, hnone, hact, ⟨exp, hexp, hpay, h⟩⟩ := h
  split at h
  case isTrue hmint =>
    simp only [req_ok, vseq_ok, Except.ok.injEq, Prod.mk.injEq] at h
    obtain ⟨hver, htr, hv, hts, hs, hev⟩ := h
    subst hs; subst hev
    refine ⟨haOk, hnone, ?_, ?_, ?_⟩ <;> split <;> simp [fupd, *]
  case isFalse hmint =>
    split at h
    case isTrue hmint2 =>
      simp only [req_ok, vseq_ok, Except.ok.injEq, Prod.mk.injEq] at h
      obtain ⟨hver, htr, hv, hts, hs, hev⟩ := h
      subst hs; subst hev
      refine ⟨haOk, hnone, ?_, ?_, ?_⟩ <;> split <;> simp [fupd, *]
    case isFalse hmint2 => exact absurd h (by simp)

/-- Success characterisation of `buy_tokens_sol` (replay-relevant parts). -/
theorem buyTokensSol_ok_spec {s s' : StateB} {programId buyer : Nat}
    {payment_amount token_amount n : Nat} {edIx : EdIx} {now : Int}
    {accountsOk transferOk : Bool} {ev : TokensPurchasedEvent}
    (h : buyTokensSol s programId buyer payment_amount token_amount n edIx
      now accountsOk transferOk = .ok (s', ev)) :
    accountsOk = true ∧ s.nonces buyer n = none ∧
    (s'.nonces buyer n).isSome ∧
    s'.config.total_sold = s.config.total_sold + token_amount := by
  simp only [buyTokensSol, req_ok, vseq_ok, ebind_ok] at h
  obtain ⟨haOk, hnone, hact, ⟨exp, hexp, hpay, hver, h⟩⟩ := h
  simp only [req_ok, Except.ok.injEq, Prod.mk.injEq] at h
  obtain ⟨htr, hv, hts, hs, hev⟩ := h
  subst hs; subst hev
  refine ⟨haOk, hnone, ?_, ?_⟩ <;> simp [fupd]

/-- C2: submitting the identical authorized purchase call twice succeeds at
most once, in both replay-guard variants.  For the per-buyer counter
(`buy_sol` / `buy_spl`) the successful call increments the counter, so the
reconstructed message of the replay no longer matches the signed one and the
call fails with `InvalidAuthMessage`; for the per-nonce record
(`buy_tokens_spl` / `buy_tokens_sol`) the `(buyer, nonce)` PDA now exists,
so the replay fails at account creation.  Either way the failed call
commits no state. -/
theorem c2_replay_idempotence :
    (∀ (s : StateA) (programId user lamports : Nat) (expiresAt : Int)
        (signature : List Nat) (edIx : EdIx) (oracle : OracleFeed) (now : Int)
        (transferOk : Bool) (s' : StateA) (ev : BuyEvent),
      buySol s programId user lamports expiresAt signature edIx oracle now
          transferOk = .ok (s', ev) →
        buySol s' programId user lamports expiresAt signature edIx oracle now
          transferOk = .error (.progA .InvalidAuthMessage) ∧
        stepA (buySol s' programId user lamports expiresAt signature edIx
          oracle now transferOk) s' = s') ∧
    (∀ (s : StateA) (programId user amount : Nat) (expiresAt : Int)
        (signature : List Nat) (edIx : EdIx) (paymentMint paymentDecimals : Nat)
        (now : Int) (transferOk : Bool) (s' : StateA) (ev : BuyEvent),
      buySpl s programId user amount expiresAt signature edIx paymentMint
          paymentDecimals now transferOk = .ok (s', ev) →
        buySpl s' programId user amount expiresAt signature edIx paymentMint
          paymentDecimals now transferOk =
          .error (.progA .InvalidAuthMessage) ∧
        stepA (buySpl s' programId user amount expiresAt signature edIx
          paymentMint paymentDecimals now transferOk) s' = s') ∧
    (∀ (s : StateB) (programId buyer paymentMint : Nat)
        (payment_amount token_amount n : Nat) (edIx : EdIx) (now : Int)
        (accountsOk transferOk : Bool) (s' : StateB)
        (ev : TokensPurchasedEvent),
      buyTokensSpl s programId buyer paymentMint payment_amount token_amount
          n edIx now accountsOk transferOk = .ok (s', ev) →
        buyTokensSpl s' programId buyer paymentMint payment_amount
          token_amount n edIx now accountsOk transferOk =
          .error .accountInUse ∧
        stepB (buyTokensSpl s' programId buyer paymentMint payment_amount
          token_amount n edIx now accountsOk transferOk) s' = s') ∧
    (∀ (s : StateB) (programId buyer : Nat)
        (payment_amount token_amount n : Nat) (edIx : EdIx) (now : Int)
        (accountsOk transferOk : Bool) (s' : StateB)
        (ev : TokensPurchasedEvent),
      buyTokensSol s programId buyer payment_amount token_amount n edIx now
          accountsOk transferOk = .ok (s', ev) →
        buyTokensSol s' programId buyer payment_amount token_amount n edIx
          now accountsOk transferOk = .error .accountInUse ∧
        stepB (buyTokensSol s' programId buyer payment_amount token_amount n
          edIx now accountsOk transferOk) s' = s') := by
  refine ⟨?_, ?_, ?_, ?_⟩
  · intro s programId user lamports expiresAt signature edIx oracle now
      transferOk s' ev h
    obtain ⟨h1, h2, h3, h4, hver, hn6, -, -, -, -, hstat, hstart, -, -, -,
      hday, hnonce, -, -, -, -, -⟩ := buySol_ok_spec h
    have hne : buySolMsg programId user (s.nonce user + 1) expiresAt ≠
        buySolMsg programId user (s.nonce user) expiresAt :=
      buySolMsg_ne hn6 (by omega) (by omega)
    have herr : buySol s' programId user lamports expiresAt signature edIx
        oracle now transferOk = .error (.progA .InvalidAuthMessage) := by
      simp only [buySol]
      rw [hstat, hstart, hday, hnonce]
      rw [req_pos h1, req_pos h2, req_pos h3, req_pos h4]
      rw [verifyA_msg_swap _ hver hne]
      exact vseq_err _ _
    exact ⟨herr, by rw [herr]; rfl⟩
  · intro s programId user amount expiresAt signature edIx paymentMint
      paymentDecimals now transferOk s' ev h
    obtain ⟨h1, h2, h3, h4, hver, hn6, -, -, -, -, hstat, hstart, -, -, -,
      hday, hnonce, -, -, -, -, -⟩ := buySpl_ok_spec h
    have hne : buySplMsg programId user (s.nonce user + 1) expiresAt ≠
        buySplMsg programId user (s.nonce user) expiresAt :=
      buySplMsg_ne hn6 (by omega) (by omega)
    have herr : buySpl s' programId user amount expiresAt signature edIx
        paymentMint paymentDecimals now transferOk =
        .error (.progA .InvalidAuthMessage) := by
      simp only [buySpl]
      rw [hstat, hstart, hday, hnonce]
      rw [req_pos h1, req_pos h2, req_pos h3, req_pos h4]
      rw [verifyA_msg_swap _ hver hne]
      exact vseq_err _ _
    exact ⟨herr, by rw [herr]; rfl⟩
  · intro s programId buyer paymentMint payment_amount token_amount n edIx
      now accountsOk transferOk s' ev h
    obtain ⟨haOk, -, hsome, -, -⟩ := buyTokensSpl_ok_spec h
    have herr : buyTokensSpl s' programId buyer paymentMint payment_amount
        token_amount n edIx now accountsOk transferOk =
        .error .accountInUse := by
      simp only [buyTokensSpl]
      rw [req_pos haOk]
      exact req_neg (Option.isSome_iff_ne_none.mp hsome) _ _
    exact ⟨herr, by rw [herr]; rfl⟩
  · intro s programId buyer payment_amount token_amount n edIx now accountsOk
      transferOk s' ev h
    obtain ⟨haOk, -, hsome, -⟩ := buyTokensSol_ok_spec h
    have herr : buyTokensSol s' programId buyer payment_amount token_amount n
        edIx now accountsOk transferOk = .error .accountInUse := by
      simp only [buyTokensSol]
      rw [req_pos haOk]
      exact req_neg (Option.isSome_iff_ne_none.mp hsome) _ _
    exact ⟨herr, by rw [herr]; rfl⟩

set_option maxRecDepth 16000

/-- Concrete successful first `buy_sol` call (C2 witness input). -/
def wSolRes : StateA × BuyEvent :=
  ((buySol wStateA 7 1 (10 ^ 9) 0 wSig wSolIx wOracle 0 true).toOption).getD
    (wStateA, ⟨0, 0, 0, 0⟩)

/-- Concrete successful first `buy_spl` call (C2 witness input). -/
def wSplRes : StateA × BuyEvent :=
  ((buySpl wStateA 7 1 1000 0 wSig wSplIx 4 9 0 true).toOption).getD
    (wStateA, ⟨0, 0, 0, 0⟩)

/-- Concrete successful first `buy_tokens_spl` call (C2 witness input). -/
def wBSplRes : StateB × TokensPurchasedEvent :=
  ((buyTokensSpl wStateB 7 1 4 1000 1000 5 wBIx 0 true true).toOption).getD
    (wStateB, ⟨0, 0, 0, 0, 0⟩)

/-- Concrete successful first `buy_tokens_sol` call (C2 witness input). -/
def wBSolRes : StateB × TokensPurchasedEvent :=
  ((buyTokensSol wStateB 7 1 1000 1000 6 wBSolIx 0 true true).toOption).getD
    (wStateB, ⟨0, 0, 0, 0, 0⟩)

/-- C2 witness: the replay theorem applied to concrete successful first
calls of all four purchase paths. -/
theorem c2_witness :
    (buySol wSolRes.1 7 1 (10 ^ 9) 0 wSig wSolIx wOracle 0 true =
        .error (.progA .InvalidAuthMessage) ∧
      stepA (buySol wSolRes.1 7 1 (10 ^ 9) 0 wSig wSolIx wOracle 0 true)
        wSolRes.1 = wSolRes.1) ∧
    (buySpl wSplRes.1 7 1 1000 0 wSig wSplIx 4 9 0 true =
        .error (.progA .InvalidAuthMessage) ∧
      stepA (buySpl wSplRes.1 7 1 1000 0 wSig wSplIx 4 9 0 true)
        wSplRes.1 = wSplRes.1) ∧
    (buyTokensSpl wBSplRes.1 7 1 4 1000 1000 5 wBIx 0 true true =
        .error .accountInUse ∧
      stepB (buyTokensSpl wBSplRes.1 7 1 4 1000 1000 5 wBIx 0 true true)
        wBSplRes.1 = wBSplRes.1) ∧
    (buyTokensSol wBSolRes.1 7 1 1000 1000 6 wBSolIx 0 true true =
        .error .accountInUse ∧
      stepB (buyTokensSol wBSolRes.1 7 1 1000 1000 6 wBSolIx 0 true true)
        wBSolRes.1 = wBSolRes.1) :=
  ⟨c2_replay_idempotence.1 wStateA 7 1 (10 ^ 9) 0 wSig wSolIx wOracle 0 true
      wSolRes.1 wSolRes.2 rfl,
   c2_replay_idempotence.2.1 wStateA 7 1 1000 0 wSig wSplIx 4 9 0 true
      wSplRes.1 wSplRes.2 rfl,
   c2_replay_idempotence.2.2.1 wStateB 7 1 4 1000 1000 5 wBIx 0 true true
      wBSplRes.1 wBSplRes.2 rfl,
   c2_replay_idempotence.2.2.2 wStateB 7 1 1000 1000 6 wBSolIx 0 true true
      wBSolRes.1 wBSolRes.2 rfl⟩


/-! ## Claim C3 -/

/-- Concrete successful `credit_allocation` call (C3 witness input). -/
def wCreditFull : StateA × CreditEvent :=
  ((creditAllocation wStateA 9 1 1000 50 0).toOption).getD (wStateA, ⟨0, 0, 0⟩)

/-- C3 counterexample: a successful `buy_spl` purchase of 1000 token units
at `tge_percentage = 50` leaves `amount_vesting` unchanged — the handler
never writes that field — while the claim demands an increase of
`1000 - floor(1000*50/100) = 500`. -/
theorem c3_counterexample :
    buySpl wStateA 7 1 1000 0 wSig wSplIx 4 9 0 true =
      .ok (wSplRes.1, wSplRes.2) ∧
    wSplRes.2.token_amount = 1000 ∧
    wStateA.config.tge_percentage = 50 ∧
    (wSplRes.1.alloc 1).amount_vesting = (wStateA.alloc 1).amount_vesting ∧
    (wStateA.alloc 1).amount_vesting + (1000 - 1000 * 50 / 100) ≠
      (wSplRes.1.alloc 1).amount_vesting :=
  ⟨rfl, rfl, rfl, rfl, by decide⟩

/-- C3 amended: the claimed TGE split (claimable += floor(n*p/100),
vesting += n − floor(n*p/100)) holds exactly for `credit_allocation`, but
`buy_sol` and `buy_spl` only credit the claimable part and leave
`amount_vesting` untouched. -/
theorem c3_split_amended :
    (∀ (s : StateA) (caller user tokenAmount usdAmount : Nat) (now : Int)
        (s' : StateA) (ev : CreditEvent),
      creditAllocation s caller user tokenAmount usdAmount now =
          .ok (s', ev) →
        (s'.alloc user).claimable_amount =
          (s.alloc user).claimable_amount +
            tokenAmount * s.config.tge_percentage / 100 ∧
        (s'.alloc user).amount_vesting =
          (s.alloc user).amount_vesting +
            (tokenAmount - tokenAmount * s.config.tge_percentage / 100) ∧
        tokenAmount * s.config.tge_percentage / 100 +
          (tokenAmount - tokenAmount * s.config.tge_percentage / 100) =
          tokenAmount) ∧
    (∀ (s : StateA) (programId user lamports : Nat) (expiresAt : Int)
        (signature : List Nat) (edIx : EdIx) (oracle : OracleFeed) (now : Int)
        (transferOk : Bool) (s' : StateA) (ev : BuyEvent),
      buySol s programId user lamports expiresAt signature edIx oracle now
          transferOk = .ok (s', ev) →
        (s'.alloc user).claimable_amount =
          (s.alloc user).claimable_amount +
            ev.token_amount * s.config.tge_percentage / 100 ∧
        (s'.alloc user).amount_vesting = (s.alloc user).amount_vesting) ∧
    (∀ (s : StateA) (programId user amount : Nat) (expiresAt : Int)
        (signature : List Nat) (edIx : EdIx) (paymentMint paymentDecimals : Nat)
        (now : Int) (transferOk : Bool) (s' : StateA) (ev : BuyEvent),
      buySpl s programId user amount expiresAt signature edIx paymentMint
          paymentDecimals now transferOk = .ok (s', ev) →
        (s'.alloc user).claimable_amount =
          (s.alloc user).claimable_amount +
            ev.token_amount * s.config.tge_percentage / 100 ∧
        (s'.alloc user).amount_vesting = (s.alloc user).amount_vesting) := by
  refine ⟨?_, ?_, ?_⟩
  · intro s caller user tokenAmount usdAmount now s' ev h
    obtain ⟨-, -, -, -, -, -, hfle, -, -, -, -, hcl, hv, -, -, -⟩ :=
      creditAllocation_ok_spec h
    exact ⟨hcl, hv, by omega⟩
  · intro s programId user lamports expiresAt signature edIx oracle now
      transferOk s' ev h
    obtain ⟨-, -, -, -, -, -, -, -, -, -, -, -, -, -, -, -, -, hcl, hv, -, -,
      -⟩ := buySol_ok_spec h
    exact ⟨hcl, hv⟩
  · intro s programId user amount expiresAt signature edIx paymentMint
      paymentDecimals now transferOk s' ev h
    obtain ⟨-, -, -, -, -, -, -, -, -, -, -, -, -, -, -, -, -, hcl, hv, -, -,
      -⟩ := buySpl_ok_spec h
    exact ⟨hcl, hv⟩

/-- C3 witness: the amended split theorem applied to concrete successful
credit, buy_sol and buy_spl calls. -/
theorem c3_witness :
    ((wCreditFull.1.alloc 1).claimable_amount =
        (wStateA.alloc 1).claimable_amount +
          1000 * wStateA.config.tge_percentage / 100 ∧
      (wCreditFull.1.alloc 1).amount_vesting =
        (wStateA.alloc 1).amount_vesting +
          (1000 - 1000 * wStateA.config.tge_percentage / 100) ∧
      1000 * wStateA.config.tge_percentage / 100 +
        (1000 - 1000 * wStateA.config.tge_percentage / 100) = 1000) ∧
    ((wSolRes.1.alloc 1).claimable_amount =
        (wStateA.alloc 1).claimable_amount +
          wSolRes.2.token_amount * wStateA.config.tge_percentage / 100 ∧
      (wSolRes.1.alloc 1).amount_vesting = (wStateA.alloc 1).amount_vesting) ∧
    ((wSplRes.1.alloc 1).claimable_amount =
        (wStateA.alloc 1).claimable_amount +
          wSplRes.2.token_amount * wStateA.config.tge_percentage / 100 ∧
      (wSplRes.1.alloc 1).amount_vesting = (wStateA.alloc 1).amount_vesting) :=
  ⟨c3_split_amended.1 wStateA 9 1 1000 50 0 wCreditFull.1 wCreditFull.2 rfl,
   c3_split_amended.2.1 wStateA 7 1 (10 ^ 9) 0 wSig wSolIx wOracle 0 true
     wSolRes.1 wSolRes.2 (by rfl),
   c3_split_amended.2.2 wStateA 7 1 1000 0 wSig wSplIx 4 9 0 true
     wSplRes.1 wSplRes.2 (by rfl)⟩


/-! ## Claims C4, C5, C6, C10 -/

/-- Success characterisation of `update_config`: the admin constraint held,
and the new price / tge / cap / start time are applied unconditionally (the
source comments out the monotonic-policy checks and the new-day check);
`total_burned` grows by the outgoing cap minus `config.sold_today` plus the
saturating difference of the new cap and the outgoing daily `sold_today`. -/
theorem updateConfigA_ok_spec {s s' : StateA}
    {caller new_price new_tge new_daily_cap : Nat} {new_start_time now : Int}
    {burnOk : Bool} {ev : ConfigUpdateEvent}
    (h : updateConfigA s caller new_price new_tge new_daily_cap
      new_start_time now burnOk = .ok (s', ev)) :
    caller = s.config.admin ∧
    s.config.sold_today ≤ s.config.daily_cap ∧
    s'.config.token_price_usd = new_price ∧
    s'.config.tge_percentage = new_tge ∧
    s'.config.daily_cap = new_daily_cap ∧
    s'.config.start_time = new_start_time ∧
    s'.config.total_burned = s.config.total_burned +
      ((s.config.daily_cap - s.config.sold_today) +
        (new_daily_cap - s.daily.sold_today)) ∧
    s'.daily.sold_today = 0 ∧
    s'.daily.current_day = i64ToU64 (Int.tdiv now 86400) ∧
    s'.config.status =
      (if new_daily_cap = 0 then .PresaleEnded else s.config.status) ∧
    ev = ⟨new_price, new_tge, new_daily_cap⟩ := by
  simp only [updateConfigA, req_ok] at h
  obtain ⟨hadm, hsold, hov, h⟩ := h
  split at h
  case isTrue hpos =>
    simp only [req_ok, Except.ok.injEq, Prod.mk.injEq] at h
    obtain ⟨hbl, hbOk, hs, hev⟩ := h
    subst hs; subst hev
    refine ⟨hadm, hsold, ?_, ?_, ?_, ?_, ?_, ?_, ?_, ?_, rfl⟩ <;>
      simp [updCfgFinish]
  case isFalse hpos =>
    simp only [Except.ok.injEq, Prod.mk.injEq] at h
    obtain ⟨hs, hev⟩ := h
    subst hs; subst hev
    refine ⟨hadm, hsold, ?_, ?_, ?_, ?_, ?_, ?_, ?_, ?_, rfl⟩ <;>
      (simp [updCfgFinish]; try omega)

/-- Result of the concrete policy-violating `update_config` call (price
lowered from `10 ^ 6` to 5, daily cap from 10 to 5). -/
def w4Res : StateA × ConfigUpdateEvent :=
  ((updateConfigA w6StateA 9 5 40 5 123 86400 true).toOption).getD
    (w6StateA, ⟨0, 0, 0⟩)

/-- C4 counterexample: an `update_config` call that lowers the token price
succeeds and stores the lower price — the claim says it must be rejected
with `PriceCannotDecrease` and change nothing. -/
theorem c4_counterexample :
    updateConfigA w6StateA 9 5 40 5 123 86400 true = .ok (w4Res.1, w4Res.2) ∧
    w6StateA.config.token_price_usd = 10 ^ 6 ∧
    w4Res.1.config.token_price_usd = 5 ∧
    (5 : Nat) < 10 ^ 6 :=
  ⟨by rfl, rfl, by rfl, by norm_num⟩

/-- C4 amended: the monotonic-policy checks are commented out in this
variant, so every successful `update_config` applies the caller's new price,
tge percentage and daily cap unconditionally — whether or not they respect
the monotonic rules. -/
theorem c4_update_config_amended :
    ∀ (s : StateA) (caller new_price new_tge new_daily_cap : Nat)
      (new_start_time now : Int) (burnOk : Bool) (s' : StateA)
      (ev : ConfigUpdateEvent),
      updateConfigA s caller new_price new_tge new_daily_cap new_start_time
          now burnOk = .ok (s', ev) →
        s'.config.token_price_usd = new_price ∧
        s'.config.tge_percentage = new_tge ∧
        s'.config.daily_cap = new_daily_cap := by
  intro s caller new_price new_tge new_daily_cap new_start_time now burnOk s'
    ev h
  obtain ⟨-, -, hp, ht, hc, -⟩ := updateConfigA_ok_spec h
  exact ⟨hp, ht, hc⟩

/-- C4 witness: the amended theorem at the concrete price-lowering call. -/
theorem c4_witness :
    w4Res.1.config.token_price_usd = 5 ∧
    w4Res.1.config.tge_percentage = 40 ∧
    w4Res.1.config.daily_cap = 5 :=
  c4_update_config_amended w6StateA 9 5 40 5 123 86400 true w4Res.1 w4Res.2
    (by rfl)

def w5State : StateA :=
  { wStateA with config := { wCfgA with status := .PresaleEnded } }

def w5Res : StateA :=
  ((setStatusA w5State 9 .PresaleActive).toOption).getD w5State

/-- C5 counterexample: with status `PresaleEnded`, an admin `set_status`
back to `PresaleActive` succeeds — the claim says only a transition to
`TokenLaunched` is permitted and anything else is rejected
(`CannotReopenPresale`). -/
theorem c5_counterexample :
    setStatusA w5State 9 .PresaleActive = .ok w5Res ∧
    w5State.config.status = .PresaleEnded ∧
    w5Res.config.status = .PresaleActive :=
  ⟨by rfl, rfl, by rfl⟩

/-- C5 amended: the reopen guard is commented out in this variant, so
`set_status` writes any requested status unconditionally (admin-only); in
particular `Active` can be restored after `Ended`. -/
theorem c5_set_status_amended :
    ∀ (s : StateA) (caller : Nat) (status : PresaleStatus),
      caller = s.config.admin →
        setStatusA s caller status =
          .ok { s with config := { s.config with status := status } } := by
  intro s caller status hadm
  simp [setStatusA, req_pos hadm]

/-- C5 witness: the amended theorem at the concrete reopen call. -/
theorem c5_witness :
    setStatusA w5State 9 .PresaleActive =
      .ok { w5State with
            config := { w5State.config with status := .PresaleActive } } :=
  c5_set_status_amended w5State 9 .PresaleActive rfl

/-- C6 counterexample: rolling over from outgoing cap `C = 10` with
`sold_today = 8` to new cap `C' = 5` increases `total_burned` by 10 (the
code burns `daily_cap - config.sold_today = 10 - 0` plus
`saturating_sub(5, 8) = 0`), not by `(C - S) + C' = 7` as the claim
states. -/
theorem c6_counterexample :
    updateConfigA w6StateA 9 5 40 5 123 86400 true = .ok (w4Res.1, w4Res.2) ∧
    w6StateA.config.daily_cap = 10 ∧
    w6StateA.daily.sold_today = 8 ∧
    w6StateA.config.total_burned = 0 ∧
    w4Res.1.config.total_burned = 10 ∧
    (10 : Nat) ≠ (10 - 8) + 5 :=
  ⟨by rfl, rfl, rfl, rfl, by rfl, by decide⟩

/-- C6 amended: a successful rollover increases `total_burned` by exactly
`(daily_cap − config.sold_today) + (new_daily_cap ∸ daily_state.sold_today)`
— the first term uses the config's own (never-incremented) `sold_today`
counter rather than the daily window's, and the second is the saturating
difference of the *incoming* cap and the *pre-reset* outgoing daily sold
amount, not the full incoming cap. -/
theorem c6_burn_amended :
    ∀ (s : StateA) (caller new_price new_tge new_daily_cap : Nat)
      (new_start_time now : Int) (burnOk : Bool) (s' : StateA)
      (ev : ConfigUpdateEvent),
      updateConfigA s caller new_price new_tge new_daily_cap new_start_time
          now burnOk = .ok (s', ev) →
        s.config.sold_today ≤ s.config.daily_cap ∧
        s'.config.total_burned = s.config.total_burned +
          ((s.config.daily_cap - s.config.sold_today) +
            (new_daily_cap - s.daily.sold_today)) := by
  intro s caller new_price new_tge new_daily_cap new_start_time now burnOk s'
    ev h
  obtain ⟨-, hsold, -, -, -, -, hburn, -⟩ := updateConfigA_ok_spec h
  exact ⟨hsold, hburn⟩

/-- C6 witness: the amended burn accounting at the concrete rollover. -/
theorem c6_witness :
    w6StateA.config.sold_today ≤ w6StateA.config.daily_cap ∧
    w4Res.1.config.total_burned = w6StateA.config.total_burned +
      ((w6StateA.config.daily_cap - w6StateA.config.sold_today) +
        (5 - w6StateA.daily.sold_today)) :=
  c6_burn_amended w6StateA 9 5 40 5 123 86400 true w4Res.1 w4Res.2 (by rfl)

/-- C10: every successful `update_config` call stores the caller-supplied
`new_start_time` into `PresaleConfig.start_time` — the write happens before
any check in the handler, so with per-call rollback it survives exactly on
success, whatever the other arguments are. -/
theorem c10_start_time_overwrite :
    ∀ (s : StateA) (caller new_price new_tge new_daily_cap : Nat)
      (new_start_time now : Int) (burnOk : Bool) (s' : StateA)
      (ev : ConfigUpdateEvent),
      updateConfigA s caller new_price new_tge new_daily_cap new_start_time
          now burnOk = .ok (s', ev) →
        s'.config.start_time = new_start_time := by
  intro s caller new_price new_tge new_daily_cap new_start_time now burnOk s'
    ev h
  obtain ⟨-, -, -, -, -, hst, -⟩ := updateConfigA_ok_spec h
  exact hst

/-- C10 witness: the concrete rollover stores its `new_start_time = 123`
even though the presale's start time was 0 and no argument asked for a
start-time change semantically. -/
theorem c10_witness : w4Res.1.config.start_time = 123 :=
  c10_start_time_overwrite w6StateA 9 5 40 5 123 86400 true w4Res.1 w4Res.2
    (by rfl)


/-! ## Claims C7 and C9 -/

/-- Result of the concrete truncating `buy_spl` purchase: the wide token
amount is `18446744073710 * 10^6`, just above `2^64`. -/
def w7Res : StateA × BuyEvent :=
  ((buySpl w7StateA 7 1 18446744073710 0 wSig wSplIx 4 9 0 true).toOption).getD
    (wStateA, ⟨0, 0, 0, 0⟩)

/-- C7 counterexample: with token price 1 and a payment of `18446744073710`
(9-decimal) units, the wide token amount is `18446744073710000000 ≥ 2^64`,
yet the purchase succeeds and records the silently truncated amount
`448384` — the claim says such a call must be rejected before any state
mutation. -/
theorem c7_counterexample :
    buySpl w7StateA 7 1 18446744073710 0 wSig wSplIx 4 9 0 true =
      .ok (w7Res.1, w7Res.2) ∧
    splWideAmount 18446744073710 9 w7StateA.config.token_price_usd =
      18446744073710000000 ∧
    U64LIM ≤ 18446744073710000000 ∧
    w7Res.2.token_amount = 448384 ∧
    w7Res.1.config.total_sold = 448384 ∧
    w7Res.2.token_amount ≠
      splWideAmount 18446744073710 9 w7StateA.config.token_price_usd :=
  ⟨by rfl, by rfl, by decide, by rfl, by rfl, by decide⟩

/-- C7 amended: both conversion paths do compute in `u128`, but the final
`as u64` cast truncates silently: every successful purchase records the
wide amount reduced mod `2^64`, with no rejection when it exceeds the `u64`
range. -/
theorem c7_truncation_amended :
    (∀ (s : StateA) (programId user lamports : Nat) (expiresAt : Int)
        (signature : List Nat) (edIx : EdIx) (oracle : OracleFeed) (now : Int)
        (transferOk : Bool) (s' : StateA) (ev : BuyEvent),
      buySol s programId user lamports expiresAt signature edIx oracle now
          transferOk = .ok (s', ev) →
        ev.token_amount =
          solWideAmount lamports oracle s.config.token_price_usd % U64LIM ∧
        s'.config.total_sold = s.config.total_sold + ev.token_amount) ∧
    (∀ (s : StateA) (programId user amount : Nat) (expiresAt : Int)
        (signature : List Nat) (edIx : EdIx) (paymentMint paymentDecimals : Nat)
        (now : Int) (transferOk : Bool) (s' : StateA) (ev : BuyEvent),
      buySpl s programId user amount expiresAt signature edIx paymentMint
          paymentDecimals now transferOk = .ok (s', ev) →
        ev.token_amount =
          splWideAmount amount paymentDecimals s.config.token_price_usd %
            U64LIM ∧
        s'.config.total_sold = s.config.total_sold + ev.token_amount) := by
  constructor
  · intro s programId user lamports expiresAt signature edIx oracle now
      transferOk s' ev h
    obtain ⟨-, -, -, -, -, -, -, -, hts, -, -, -, -, -, -, -, -, -, -, -,
      hwide, -⟩ := buySol_ok_spec h
    exact ⟨hwide, hts⟩
  · intro s programId user amount expiresAt signature edIx paymentMint
      paymentDecimals now transferOk s' ev h
    obtain ⟨-, -, -, -, -, -, -, -, hts, -, -, -, -, -, -, -, -, -, -, -,
      hwide, -⟩ := buySpl_ok_spec h
    exact ⟨hwide, hts⟩

/-- C7 witness: the amended truncation law at the concrete oversized
purchase and at a concrete in-range `buy_sol` purchase. -/
theorem c7_witness :
    (wSolRes.2.token_amount =
        solWideAmount (10 ^ 9) wOracle wStateA.config.token_price_usd %
          U64LIM ∧
      wSolRes.1.config.total_sold =
        wStateA.config.total_sold + wSolRes.2.token_amount) ∧
    (w7Res.2.token_amount =
        splWideAmount 18446744073710 9 w7StateA.config.token_price_usd %
          U64LIM ∧
      w7Res.1.config.total_sold =
        w7StateA.config.total_sold + w7Res.2.token_amount) :=
  ⟨c7_truncation_amended.1 wStateA 7 1 (10 ^ 9) 0 wSig wSolIx wOracle 0 true
      wSolRes.1 wSolRes.2 (by rfl),
   c7_truncation_amended.2 w7StateA 7 1 18446744073710 0 wSig wSplIx 4 9 0
      true w7Res.1 w7Res.2 (by rfl)⟩

/-- Committed allocation of a variant-A claim call under rollback
semantics. -/
def stepClaimA (r : Except TxErr (UserAllocationA × Nat))
    (a : UserAllocationA) : UserAllocationA :=
  match r with
  | .ok p => p.1
  | .error _ => a

/-- C9: in the global-unlock variant every claim call is rejected with
`NotLaunched` unless the presale status is `TokenLaunched`, even when the
caller's `claimable_amount` is positive, and the rejected call commits no
allocation state. -/
theorem c9_claim_requires_launch :
    ∀ (cfg : PresaleConfigA) (a : UserAllocationA) (caller : Nat)
      (transferOk : Bool),
      cfg.status ≠ .TokenLaunched →
        claimA cfg a caller transferOk = .error (.progA .NotLaunched) ∧
        stepClaimA (claimA cfg a caller transferOk) a = a := by
  intro cfg a caller transferOk h
  have herr : claimA cfg a caller transferOk = .error (.progA .NotLaunched) := by
    simp only [claimA]
    exact req_neg h _ _
  exact ⟨herr, by rw [herr]; rfl⟩

/-- C9 witness: a claim against an `Ended` presale with positive claimable
amount (77) is rejected with `NotLaunched` and the allocation is
untouched. -/
theorem c9_witness :
    claimA { wCfgA with status := .PresaleEnded } ⟨0, 0, 77, 0, 0, 1⟩ 1 true =
      .error (.progA .NotLaunched) ∧
    stepClaimA (claimA { wCfgA with status := .PresaleEnded }
      ⟨0, 0, 77, 0, 0, 1⟩ 1 true) ⟨0, 0, 77, 0, 0, 1⟩ = ⟨0, 0, 77, 0, 0, 1⟩ :=
  c9_claim_requires_launch { wCfgA with status := .PresaleEnded }
    ⟨0, 0, 77, 0, 0, 1⟩ 1 true (by decide)


/-! ## Claim C8 -/

/-- The division bound used by the vesting math: `t * e / p ≤ t` when
`e ≤ p`. -/
theorem vest_div_le (t e p : Nat) (h : e ≤ p) : t * e / p ≤ t :=
  Nat.div_le_of_le_mul (by rw [Nat.mul_comm p t]; exact Nat.mul_le_mul_left _ h)

/-- The spec-side vested amount never exceeds the total purchase. -/
theorem vestedSpec_le (cfg : ConfigB) (v : VestingB) (now : Int) :
    vestedSpec cfg v now ≤ v.total_purchased := by
  simp only [vestedSpec]
  split
  · exact Nat.zero_le _
  · split
    · exact Nat.le_refl _
    · exact vest_div_le _ _ _ (by omega)

/-- C8 counterexample: a vesting record with `claimed_amount = 50` queried
before the cliff (`vested = 0`, so the difference "vested − claimed" is
negative) is rejected with `Overflow` — from the failing
`checked_sub` — not with the nothing-to-claim error the claim requires. -/
theorem c8_counterexample :
    claimTokens wCfgB ⟨1, 100, 50⟩ 0 true = .error (.progB .Overflow) ∧
    vestedSpec wCfgB ⟨1, 100, 50⟩ 0 = 0 ∧
    (0 : Nat) < 50 ∧
    (TxErr.progB .Overflow) ≠ (.progB .NothingToClaim) :=
  ⟨by rfl, by rfl, by decide, by decide⟩

/-- C8 amended: with cliff and vesting ends in `i64` range and a `u64`
total, `claim_tokens` computes the vested amount exactly as the claim's
formula states (`vestedSpec`), and the claimable amount is the vested
amount minus `claimed_amount`; but the rejection error depends on the sign:
a zero difference is rejected with the nothing-to-claim error, a *negative*
difference (claimed exceeds vested) is rejected with the arithmetic
`Overflow` error from the failing `checked_sub`; on success
`claimed_amount` increases by exactly the claimable amount. -/
theorem c8_claim_tokens_amended :
    ∀ (cfg : ConfigB) (v : VestingB) (now : Int) (transferOk : Bool),
      i64Range (cfg.vesting_start_time + cfg.cliff_duration) →
      i64Range (cfg.vesting_start_time + cfg.vesting_duration) →
      i64Range (cfg.vesting_duration - cfg.cliff_duration) →
      v.total_purchased < U64LIM →
      (v.claimed_amount < vestedSpec cfg v now → transferOk = true →
        claimTokens cfg v now transferOk =
          .ok ({ v with claimed_amount :=
                  v.claimed_amount +
                    (vestedSpec cfg v now - v.claimed_amount) },
               vestedSpec cfg v now - v.claimed_amount)) ∧
      (vestedSpec cfg v now = v.claimed_amount →
        claimTokens cfg v now transferOk =
          .error (.progB .NothingToClaim)) ∧
      (vestedSpec cfg v now < v.claimed_amount →
        claimTokens cfg v now transferOk = .error (.progB .Overflow)) := by
  intro cfg v now transferOk h1 h2 hdur htot
  have hvested :
      (if now < cfg.vesting_start_time + cfg.cliff_duration then
        (Except.ok 0 : Except TxErr Nat)
       else if cfg.vesting_start_time + cfg.vesting_duration ≤ now then
        .ok v.total_purchased
       else
        req (i64Range (now - (cfg.vesting_start_time + cfg.cliff_duration)))
          .arithPanic <|
        req (i64Range (cfg.vesting_start_time + cfg.vesting_duration -
          (cfg.vesting_start_time + cfg.cliff_duration))) .arithPanic <|
        req (v.total_purchased *
          (now - (cfg.vesting_start_time + cfg.cliff_duration)).toNat <
            U128LIM) (.progB .Overflow) <|
        req (¬ (cfg.vesting_start_time + cfg.vesting_duration -
          (cfg.vesting_start_time + cfg.cliff_duration)).toNat = 0)
          (.progB .Overflow) <|
        .ok (v.total_purchased *
              (now - (cfg.vesting_start_time + cfg.cliff_duration)).toNat /
              (cfg.vesting_start_time + cfg.vesting_duration -
                (cfg.vesting_start_time + cfg.cliff_duration)).toNat %
              U64LIM)) = .ok (vestedSpec cfg v now) := by
    by_cases hc : now < cfg.vesting_start_time + cfg.cliff_duration
    · simp [vestedSpec, hc]
    · by_cases hv : cfg.vesting_start_time + cfg.vesting_duration ≤ now
      · simp [vestedSpec, hc, hv]
      · rw [if_neg hc, if_neg hv]
        simp only [i64Range] at h1 h2 hdur
        have hrange1 : i64Range
            (now - (cfg.vesting_start_time + cfg.cliff_duration)) := by
          unfold i64Range; omega
        have hrange2 : i64Range
            (cfg.vesting_start_time + cfg.vesting_duration -
              (cfg.vesting_start_time + cfg.cliff_duration)) := by
          unfold i64Range; omega
        have he : (now - (cfg.vesting_start_time + cfg.cliff_duration)).toNat
            < 2 ^ 63 := by
          have := hrange1.2; omega
        have htot' : v.total_purchased < 2 ^ 64 := htot
        have hmul : v.total_purchased *
            (now - (cfg.vesting_start_time + cfg.cliff_duration)).toNat <
            U128LIM := by
          calc v.total_purchased *
                (now - (cfg.vesting_start_time + cfg.cliff_duration)).toNat
              ≤ v.total_purchased * 2 ^ 63 :=
                Nat.mul_le_mul_left _ (Nat.le_of_lt he)
            _ < 2 ^ 64 * 2 ^ 63 :=
                (Nat.mul_lt_mul_right (by norm_num : (0 : Nat) < 2 ^ 63)).mpr
                  htot'
            _ ≤ U128LIM := by norm_num [U128LIM]
        have hpz : ¬ (cfg.vesting_start_time + cfg.vesting_duration -
            (cfg.vesting_start_time + cfg.cliff_duration)).toNat = 0 := by
          omega
        rw [req_pos hrange1, req_pos hrange2, req_pos hmul, req_pos hpz]
        have hle : v.total_purchased *
            (now - (cfg.vesting_start_time + cfg.cliff_duration)).toNat /
            (cfg.vesting_start_time + cfg.vesting_duration -
              (cfg.vesting_start_time + cfg.cliff_duration)).toNat ≤
            v.total_purchased :=
          vest_div_le _ _ _ (by omega)
        rw [Nat.mod_eq_of_lt (lt_of_le_of_lt hle htot)]
        simp [vestedSpec, hc, hv]
  have hcore : claimTokens cfg v now transferOk =
      (req (v.claimed_amount ≤ vestedSpec cfg v now) (.progB .Overflow) <|
       req (0 < vestedSpec cfg v now - v.claimed_amount)
         (.progB .NothingToClaim) <|
       req (transferOk = true) .cpiFailed <|
       req (v.claimed_amount + (vestedSpec cfg v now - v.claimed_amount) <
         U64LIM) (.progB .Overflow) <|
       .ok ({ v with claimed_amount :=
               v.claimed_amount + (vestedSpec cfg v now - v.claimed_amount) },
            vestedSpec cfg v now - v.claimed_amount)) := by
    simp only [claimTokens]
    rw [req_pos h1, req_pos h2, hvested]
    simp only [ebind_okp]
  have hvle := vestedSpec_le cfg v now
  refine ⟨?_, ?_, ?_⟩
  · intro hlt htr
    rw [hcore, req_pos (Nat.le_of_lt hlt), req_pos (by omega), req_pos htr,
      req_pos (by have : v.total_purchased < 2 ^ 64 := htot; omega)]
  · intro heq
    rw [hcore, req_pos (by omega), req_neg (by omega) _ _]
  · intro hgt
    rw [hcore, req_neg (by omega) _ _]

/-- C8 witness: the amended theorem at a concrete mid-vesting claim
(total 100, cliff end 1100, vesting end 2000, now 1600: vested 55,
claimed 50, payout 5) — the success branch applies. -/
theorem c8_witness :
    claimTokens wCfgB ⟨1, 100, 50⟩ 1600 true =
      .ok ({ buyer := 1, total_purchased := 100,
             claimed_amount := 50 + (vestedSpec wCfgB ⟨1, 100, 50⟩ 1600 - 50) },
           vestedSpec wCfgB ⟨1, 100, 50⟩ 1600 - 50) :=
  (c8_claim_tokens_amended wCfgB ⟨1, 100, 50⟩ 1600 true (by decide)
    (by decide) (by decide) (by decide)).1 (by decide) rfl

end Presale
